import Mathlib

/-!
# Verification of the Deception Strategy Evolution Engine

Shallow embedding of `deception_layer/genetic_deception.py` and the parts of
`utilities/metrics.py` and `utilities/config.py` that it uses.

Modelling conventions:
* Python numbers (ints and floats) that stay in the rational world are
  modelled as `ℤ`/`ℚ`; values that flow through `np.log2` (Shannon entropy,
  and hence fitness) are modelled as `ℝ`.
* Python dictionaries holding chromosomes are modelled as a `structure`.
  Object identity (Python dicts are mutable heap objects shared by
  reference) is modelled by an arena: the engine state holds a list of
  chromosome objects and the population / history refer to them by index,
  exactly as Python variables refer to heap objects.
* Every call to the global `random` generator is modelled as reading one
  component of an explicit random-trace value; the trace is universally
  quantified in the theorems, so a theorem about "all traces" covers every
  possible behaviour of the random generator, and a concrete trace value
  exhibits one reachable execution.
* A Python exception (IndexError / ValueError / ZeroDivisionError) is
  modelled as the value `none` of an `Option` result.
-/

/-- `credential_config` block of a chromosome. -/
structure CredentialConfig where
  complexity : ℚ
  realism_level : ℚ
  diversity : ℚ
  deriving Repr, DecidableEq

/-- `mirage_config` block of a chromosome. -/
structure MirageConfig where
  count : ℤ
  mutation_rate : ℚ
  process_types : List String
  polymorphism_intensity : ℚ
  deriving Repr, DecidableEq

/-- `filesystem_config` block of a chromosome. -/
structure FilesystemConfig where
  decoy_density : ℚ
  file_types : List String
  fractal_depth : ℤ
  deriving Repr, DecidableEq

/-- `network_config` block of a chromosome.  `service_diversity` is created
by `random.randint` but crossover blends it with a real-valued weight, so the
Python value may become a float; it is therefore modelled as `ℚ`. -/
structure NetworkConfig where
  service_diversity : ℚ
  response_delay : ℚ
  traffic_mimicry : ℚ
  deriving Repr, DecidableEq

/-- `math_config` block of a chromosome. -/
structure MathConfig where
  chaos_parameter : ℚ
  entropy_target : ℚ
  fractal_complexity : ℚ
  deriving Repr, DecidableEq

/-- One deception-strategy chromosome, as built by
`_create_random_chromosome`.  The `fitness` field is written by the fitness
evaluator, whose value involves Shannon entropy, hence `ℝ`. -/
structure Chromosome where
  id : String
  honeypot_count : ℤ
  honeypot_types : List String
  mirage_config : MirageConfig
  credential_config : CredentialConfig
  filesystem_config : FilesystemConfig
  network_config : NetworkConfig
  math_config : MathConfig
  fitness : ℝ
  generation_created : ℕ
  parent_ids : List String

/-- `fitness_weights` entry of `GA_CONFIG`. -/
structure FitnessWeights where
  engagement_time : ℚ
  data_quality : ℚ
  confusion_score : ℚ
  genetic_diversity : ℚ
  deriving Repr, DecidableEq

/-- The engine parameters read from `GA_CONFIG` by
`GeneticDeceptionEvolver.__init__` (`max_generations` is present in the
config dictionary but never read by the engine, so it is not modelled). -/
structure GAConfig where
  population_size : ℕ
  mutation_rate : ℚ
  crossover_rate : ℚ
  elite_size : ℕ
  fitness_weights : FitnessWeights
  deriving Repr, DecidableEq

/-- The concrete `GA_CONFIG` dictionary from `utilities/config.py`. -/
def GA_CONFIG : GAConfig :=
  { population_size := 20
    mutation_rate := 2/10
    crossover_rate := 8/10
    elite_size := 4
    fitness_weights :=
      { engagement_time := 3/10
        data_quality := 25/100
        confusion_score := 25/100
        genetic_diversity := 2/10 } }

/-- A default chromosome value, used only to totalize arena lookups whose
index is in bounds in every reachable state (Python references cannot
dangle). -/
def defaultChromosome : Chromosome :=
  { id := ""
    honeypot_count := 0
    honeypot_types := []
    mirage_config := { count := 0, mutation_rate := 0, process_types := [], polymorphism_intensity := 0 }
    credential_config := { complexity := 0, realism_level := 0, diversity := 0 }
    filesystem_config := { decoy_density := 0, file_types := [], fractal_depth := 0 }
    network_config := { service_diversity := 0, response_delay := 0, traffic_mimicry := 0 }
    math_config := { chaos_parameter := 0, entropy_target := 0, fractal_complexity := 0 }
    fitness := 0
    generation_created := 0
    parent_ids := [] }

/-! ## Diversity and entropy utilities (`utilities/metrics.py`) -/

/-- `MetricsTracker._hamming_distance`: space-pad the shorter string to the
longer length (`str.ljust`), count mismatching positions, divide by the
padded length; `0.0` when both strings are empty. -/
def _hamming_distance (str1 str2 : String) : ℚ :=
  if max str1.length str2.length = 0 then 0
  else
    (((List.zip (str1.toList ++ List.replicate (max str1.length str2.length - str1.length) ' ')
        (str2.toList ++ List.replicate (max str1.length str2.length - str2.length) ' ')).countP
          (fun p => p.1 != p.2) : ℤ) : ℚ) / ((max str1.length str2.length : ℕ) : ℚ)

/-- One summand `p * np.log2(p) if p > 0` of the entropy comprehension,
with `p = freq / total_chars`. -/
noncomputable def entropySummand (total : ℚ) (freq : ℕ) : ℝ :=
  if 0 < (freq : ℚ) / total then
    (((freq : ℚ) / total : ℚ) : ℝ) * Real.logb 2 (((freq : ℚ) / total : ℚ) : ℝ)
  else 0

/-- `MetricsTracker.calculate_entropy`: Shannon entropy of the character
frequency distribution of the string: `0.0` on the empty string, otherwise
`-sum(p * log2(p))` with one summand per distinct character (the keys of
the `char_freq` dictionary) and `p` its frequency over the total length. -/
noncomputable def calculate_entropy (data : String) : ℝ :=
  if data.length = 0 then 0
  else
    Neg.neg ((data.toList.dedup.map (fun ch =>
      entropySummand (data.toList.length : ℚ) (data.toList.count ch))).sum)

/-- A `{name, memory, cpu}` snapshot of a polymorphic mirage process, as
consumed by `calculate_genetic_diversity_score`.  The claims quantify over
snapshots that carry all three keys, so the `.get(key, default)` fallbacks
of the source never fire and the fields are modelled directly. -/
structure ProcState where
  name : String
  memory : ℚ
  cpu : ℚ
  deriving Repr, DecidableEq

/-- The per-previous-state composite diversity term of
`calculate_genetic_diversity_score`; `none` models the `ZeroDivisionError`
raised when `max(current.memory, prev.memory) = 0`. -/
def diversityTerm (cur prev : ProcState) : Option ℚ :=
  let name_diff := _hamming_distance cur.name prev.name
  if max cur.memory prev.memory = 0 then none
  else
    let memory_diff := |cur.memory - prev.memory| / max cur.memory prev.memory
    let cpu_diff := |cur.cpu - prev.cpu| / 100
    some (name_diff * (4/10) + memory_diff * (3/10) + cpu_diff * (3/10))

/-- The `diversity_scores` accumulation loop of
`calculate_genetic_diversity_score`: one composite term per previous state,
in order; the first `ZeroDivisionError` aborts the call (`none`). -/
def diversityScores (cur : ProcState) : List ProcState → Option (List ℚ)
  | [] => some []
  | p :: ps => do
    let d ← diversityTerm cur p
    let rest ← diversityScores cur ps
    some (d :: rest)

/-- `MetricsTracker.calculate_genetic_diversity_score`: `0.0` for an empty
history; otherwise the `np.mean` of the composite diversity terms over the
last five previous states (`previous_states[-5:]`). -/
def calculate_genetic_diversity_score (cur : ProcState) (previous_states : List ProcState) :
    Option ℚ :=
  if previous_states = [] then some 0
  else do
    let scores ← diversityScores cur (previous_states.drop (previous_states.length - 5))
    some (scores.sum / (scores.length : ℚ))

/-! ## Fitness evaluator (`genetic_deception.py`) -/

/-- The `attack_results` telemetry record for one chromosome.  A missing or
empty dictionary is modelled as `Option.none` at the call sites. -/
structure AttackResults where
  total_interaction_time : ℚ
  data_points_collected : ℚ
  failed_exploits : ℚ
  repeated_attempts : ℚ
  abandoned : Bool
  total_attempts : ℚ
  deriving Repr, DecidableEq

/-- `str(config_values)` for the list of numeric genes.  The claims settled
here depend on this serialization only through the nonnegativity of its
Shannon entropy (which holds for every string), so the precise float
rendering of CPython is not reproduced; the bracket/comma list shape is. -/
def pyListStr (vals : List ℚ) : String :=
  "[" ++ String.intercalate ", " (vals.map toString) ++ "]"

/-- `_calculate_chromosome_diversity`: entropy of the serialized numeric
genes, normalized by 10 and capped at 1. -/
noncomputable def _calculate_chromosome_diversity (c : Chromosome) : ℝ :=
  let config_values : List ℚ :=
    [ (c.honeypot_count : ℚ)
    , (c.mirage_config.count : ℚ)
    , c.mirage_config.mutation_rate
    , c.credential_config.complexity
    , c.filesystem_config.decoy_density
    , c.network_config.service_diversity ]
  let entropy := calculate_entropy (pyListStr config_values)
  min (entropy / 10) 1

/-- `fitness_function(chromosome, attack_results)`.  `none` models a missing
or empty (falsy) `attack_results` dictionary. -/
noncomputable def fitness_function (w : FitnessWeights) (c : Chromosome)
    (attack_results : Option AttackResults) : ℝ :=
  match attack_results with
  | none => 0
  | some a =>
    let engagement_score : ℚ := min (a.total_interaction_time / 120) 1
    let data_score : ℚ := min (a.data_points_collected / 100) 1
    let confusion_score : ℚ :=
      a.failed_exploits / max a.total_attempts 1 * (5/10) +
      a.repeated_attempts / max a.total_attempts 1 * (3/10) +
      (if a.abandoned then 2/10 else 0)
    let diversity_score : ℝ := _calculate_chromosome_diversity c
    (((engagement_score * w.engagement_time +
       data_score * w.data_quality +
       confusion_score * w.confusion_score : ℚ) : ℝ) +
      diversity_score * (w.genetic_diversity : ℚ)) * 1000

/-! ## Mutation (`_mutate`) -/

/-- The random draws consumed by one `_mutate` pass, one gate
(`random.random()`) plus one delta per mutable gene, in source order. -/
structure MutRand where
  g1 : ℚ
  d1 : ℤ
  g2 : ℚ
  d2 : ℤ
  g3 : ℚ
  u3 : ℚ
  g4 : ℚ
  u4 : ℚ
  g5 : ℚ
  u5 : ℚ
  g6 : ℚ
  u6 : ℚ
  g7 : ℚ
  u7 : ℚ
  g8 : ℚ
  d8 : ℤ
  g9 : ℚ
  u9 : ℚ
  deriving Repr, DecidableEq

/-- `_mutate(chromosome)`: returns a deep copy with each mutable gene,
independently gated at probability 0.3, shifted by its delta and clamped
(`max(lo, min(hi, v))`).  Each `if random.random() < 0.3:` block of the
source touches a distinct field and reads only that field, so the blocks
are rendered as one functional update per field with the gate inside. -/
def _mutate (r : MutRand) (c : Chromosome) : Chromosome :=
  { c with
    honeypot_count :=
      if r.g1 < 3/10 then max 3 (min 10 (c.honeypot_count + r.d1)) else c.honeypot_count
    mirage_config :=
      { c.mirage_config with
        count :=
          if r.g2 < 3/10 then max 5 (min 15 (c.mirage_config.count + r.d2))
          else c.mirage_config.count
        mutation_rate :=
          if r.g3 < 3/10 then max (1/10) (min (5/10) (c.mirage_config.mutation_rate + r.u3))
          else c.mirage_config.mutation_rate }
    credential_config :=
      { complexity :=
          if r.g4 < 3/10 then max 0 (min 1 (c.credential_config.complexity + r.u4))
          else c.credential_config.complexity
        realism_level :=
          if r.g5 < 3/10 then max 0 (min 1 (c.credential_config.realism_level + r.u5))
          else c.credential_config.realism_level
        diversity :=
          if r.g6 < 3/10 then max 0 (min 1 (c.credential_config.diversity + r.u6))
          else c.credential_config.diversity }
    filesystem_config :=
      { c.filesystem_config with
        decoy_density :=
          if r.g7 < 3/10 then max (1/10) (min (8/10) (c.filesystem_config.decoy_density + r.u7))
          else c.filesystem_config.decoy_density }
    network_config :=
      { c.network_config with
        service_diversity :=
          if r.g8 < 3/10 then max 3 (min 10 (c.network_config.service_diversity + (r.d8 : ℚ)))
          else c.network_config.service_diversity }
    math_config :=
      { c.math_config with
        chaos_parameter :=
          if r.g9 < 3/10 then max (36/10) (min 4 (c.math_config.chaos_parameter + r.u9))
          else c.math_config.chaos_parameter } }

/-! ## Crossover (`_crossover`) -/

/-- The random draws consumed by one `_crossover` call: four 0.5 swap gates,
one blend weight per numeric field of `network_config` (in dictionary order:
`service_diversity`, `response_delay`, `traffic_mimicry`) and of
`math_config` (`chaos_parameter`, `entropy_target`, `fractal_complexity`),
then the two `random.randint(1000, 9999)` id draws. -/
structure CrossRand where
  g1 : ℚ
  g2 : ℚ
  g3 : ℚ
  g4 : ℚ
  a1 : ℚ
  a2 : ℚ
  a3 : ℚ
  b1 : ℚ
  b2 : ℚ
  b3 : ℚ
  id1 : ℕ
  id2 : ℕ
  deriving Repr, DecidableEq

/-- Blend of one numeric gene for child 1: `alpha*p1 + (1-alpha)*p2`. -/
def blend1 (alpha v1 v2 : ℚ) : ℚ := alpha * v1 + (1 - alpha) * v2

/-- Blend of one numeric gene for child 2: `(1-alpha)*p1 + alpha*p2`. -/
def blend2 (alpha v1 v2 : ℚ) : ℚ := (1 - alpha) * v1 + alpha * v2

/-- `_crossover(parent1, parent2)` at current generation `g`: each child
starts as a deep copy of one parent; four 0.5-gated block swaps
(`honeypot_count`, `mirage_config.count`, whole `credential_config`, whole
`filesystem_config`); every numeric field of `network_config` and
`math_config` is blended with a per-field shared weight; finally the
metadata is set: a fresh `"gen{g}_chr{randint(1000,9999)}"` id,
`parent_ids`, `generation_created`.  The `fitness` field is *not* reset:
each child keeps the fitness copied from its parent. -/
def _crossover (g : ℕ) (parent1 parent2 : Chromosome) (r : CrossRand) :
    Chromosome × Chromosome :=
  let child1 :=
    { parent1 with
      honeypot_count := if r.g1 < 5/10 then parent2.honeypot_count else parent1.honeypot_count
      mirage_config :=
        { parent1.mirage_config with
          count := if r.g2 < 5/10 then parent2.mirage_config.count else parent1.mirage_config.count }
      credential_config :=
        if r.g3 < 5/10 then parent2.credential_config else parent1.credential_config
      filesystem_config :=
        if r.g4 < 5/10 then parent2.filesystem_config else parent1.filesystem_config
      network_config :=
        { service_diversity := blend1 r.a1 parent1.network_config.service_diversity parent2.network_config.service_diversity
          response_delay := blend1 r.a2 parent1.network_config.response_delay parent2.network_config.response_delay
          traffic_mimicry := blend1 r.a3 parent1.network_config.traffic_mimicry parent2.network_config.traffic_mimicry }
      math_config :=
        { chaos_parameter := blend1 r.b1 parent1.math_config.chaos_parameter parent2.math_config.chaos_parameter
          entropy_target := blend1 r.b2 parent1.math_config.entropy_target parent2.math_config.entropy_target
          fractal_complexity := blend1 r.b3 parent1.math_config.fractal_complexity parent2.math_config.fractal_complexity }
      id := "gen" ++ toString g ++ "_chr" ++ toString r.id1
      parent_ids := [parent1.id, parent2.id]
      generation_created := g }
  let child2 :=
    { parent2 with
      honeypot_count := if r.g1 < 5/10 then parent1.honeypot_count else parent2.honeypot_count
      mirage_config :=
        { parent2.mirage_config with
          count := if r.g2 < 5/10 then parent1.mirage_config.count else parent2.mirage_config.count }
      credential_config :=
        if r.g3 < 5/10 then parent1.credential_config else parent2.credential_config
      filesystem_config :=
        if r.g4 < 5/10 then parent1.filesystem_config else parent2.filesystem_config
      network_config :=
        { service_diversity := blend2 r.a1 parent1.network_config.service_diversity parent2.network_config.service_diversity
          response_delay := blend2 r.a2 parent1.network_config.response_delay parent2.network_config.response_delay
          traffic_mimicry := blend2 r.a3 parent1.network_config.traffic_mimicry parent2.network_config.traffic_mimicry }
      math_config :=
        { chaos_parameter := blend2 r.b1 parent1.math_config.chaos_parameter parent2.math_config.chaos_parameter
          entropy_target := blend2 r.b2 parent1.math_config.entropy_target parent2.math_config.entropy_target
          fractal_complexity := blend2 r.b3 parent1.math_config.fractal_complexity parent2.math_config.fractal_complexity }
      id := "gen" ++ toString g ++ "_chr" ++ toString r.id2
      parent_ids := [parent1.id, parent2.id]
      generation_created := g }
  (child1, child2)

/-! ## Population manager helpers -/

/-- Stable insertion into a descending-by-fitness list: the inserted element
goes before the first element whose key it meets or exceeds.  Together with
`sortDesc` this realizes the semantics of CPython's stable
`sorted(fitness_scores, key=lambda x: x[1], reverse=True)`: descending by
key, ties in original order. -/
noncomputable def insertDesc (x : ℕ × ℝ) : List (ℕ × ℝ) → List (ℕ × ℝ)
  | [] => [x]
  | y :: ys => if x.2 ≥ y.2 then x :: y :: ys else y :: insertDesc x ys

/-- Stable descending sort by the fitness component (see `insertDesc`). -/
noncomputable def sortDesc : List (ℕ × ℝ) → List (ℕ × ℝ)
  | [] => []
  | x :: xs => insertDesc x (sortDesc xs)

/-- Python's `max(h :: t, key)`: the first element attaining the maximal
key (a later element replaces the current best only when strictly
greater). -/
noncomputable def pyMaxBy {α : Type} (key : α → ℝ) (h : α) (t : List α) : α :=
  t.foldl (fun best x => if key x > key best then x else best) h

/-- `np.mean` of a list of floats: sum divided by length. -/
noncomputable def pyMean (l : List ℝ) : ℝ := l.sum / (l.length : ℝ)

/-- One round of `_tournament_selection`:
`tournament = random.sample(sorted_population, 3)` — three *distinct*
positions, in selection order — then the winner
`max(tournament, key=lambda x: x[1])[0]`.  `idxs` is the position list
drawn by this round's `random.sample` call; a list that `random.sample`
cannot produce (wrong length, repeated positions, or out of bounds, the
latter covering the `ValueError` raised when the population has fewer than
3 members) yields `none`. -/
noncomputable def tournamentRound (sorted_population : List (ℕ × ℝ)) (idxs : List ℕ) :
    Option ℕ :=
  if idxs.length = 3 ∧ idxs.Nodup ∧ ∀ j ∈ idxs, j < sorted_population.length then
    match idxs.map (fun j => sorted_population.getD j (0, 0)) with
    | [] => none
    | t :: ts => some (pyMaxBy Prod.snd t ts).1
  else none

/-- The `for _ in range(tournament_size)` loop of `_tournament_selection`,
appending one winner per round to `selected`; `i` is the round index into
the random trace. -/
noncomputable def tournamentLoop (sorted_population : List (ℕ × ℝ)) (samples : ℕ → List ℕ) :
    ℕ → ℕ → Option (List ℕ)
  | _, 0 => some []
  | i, n + 1 =>
    match tournamentRound sorted_population (samples i),
        tournamentLoop sorted_population samples (i + 1) n with
    | some w, some rest => some (w :: rest)
    | _, _ => none

/-- `_tournament_selection(sorted_population, tournament_size)`: repeat
`tournament_size` rounds of `tournamentRound` and collect the winners.
The local variable `population_size` of the source is unused there and not
modelled. -/
noncomputable def _tournament_selection (sorted_population : List (ℕ × ℝ))
    (tournament_size : ℕ) (samples : ℕ → List ℕ) : Option (List ℕ) :=
  tournamentLoop sorted_population samples 0 tournament_size

/-- Modelled from the spec: one round of the §4.4 sentence "sample 3
chromosomes with replacement from the ranked set, winner = max fitness".
Identical to `tournamentRound` except that a sample with repeated
positions is allowed, which is what sampling *with* replacement means;
used only to compare the spec sampling discipline against the source's
`random.sample`. -/
noncomputable def tournamentRound_spec (sorted_population : List (ℕ × ℝ)) (idxs : List ℕ) :
    Option ℕ :=
  if idxs.length = 3 ∧ ∀ j ∈ idxs, j < sorted_population.length then
    match idxs.map (fun j => sorted_population.getD j (0, 0)) with
    | [] => none
    | t :: ts => some (pyMaxBy Prod.snd t ts).1
  else none

/-! ## Engine state -/

/-- One entry of `fitness_history`.  `best_chromosome` stores an arena
reference: the source stores the live chromosome dictionary itself
(`sorted_population[0][0]`), not a copy. -/
structure EvolutionRecord where
  generation : ℕ
  best_fitness : ℝ
  avg_fitness : ℝ
  worst_fitness : ℝ
  best_chromosome : ℕ
  improvement : ℝ

/-- A default record, used only to totalize history lookups. -/
noncomputable def defaultRecord : EvolutionRecord :=
  { generation := 0, best_fitness := 0, avg_fitness := 0, worst_fitness := 0
    best_chromosome := 0, improvement := 0 }

/-- The mutable state of a `GeneticDeceptionEvolver`.  `arena` is the heap
of chromosome objects ever allocated; `population` and the two history
sequences refer to chromosomes by arena index, which models Python's
sharing of mutable dictionaries by reference. -/
structure EngineState where
  config : GAConfig
  arena : List Chromosome
  population : List ℕ
  generation : ℕ
  fitness_history : List EvolutionRecord
  best_chromosome_history : List ℕ

/-- The random draws consumed by one iteration of the offspring loop:
`random.choice(breeding_pool)` twice (as positions in the pool), the
crossover gate `random.random()`, and the draws of the `_crossover` call
made when the gate passes. -/
structure IterRand where
  parent1_idx : ℕ
  parent2_idx : ℕ
  u : ℚ
  cross : CrossRand

/-- The full random trace of one `evolve_generation` call: the
`random.sample` position lists of the tournament rounds, the per-iteration
draws of the offspring loop, and the per-child mutation draws of Step 5
(`mutation_u i` is the `random.random()` gate compared against
`mutation_rate` for offspring `i`, `mutation_r i` the draws `_mutate` makes
when the gate passes). -/
structure EvolveRand where
  tournaments : ℕ → List ℕ
  iter : ℕ → IterRand
  mutation_u : ℕ → ℚ
  mutation_r : ℕ → MutRand

/-! ## Evolution controller (`evolve_generation`) -/

/-- Step 1 of `evolve_generation`: for each population member in order,
look its id up in `attack_results_batch` (a missing or empty entry is
`none`), compute the fitness, write it into the chromosome object
(`chromosome['fitness'] = fitness`), and append `(chromosome, fitness)` to
`fitness_scores`.  Returns the updated arena and the score pairs. -/
noncomputable def evaluatePhase (w : FitnessWeights) (stats : String → Option AttackResults) :
    List Chromosome → List ℕ → List Chromosome × List (ℕ × ℝ)
  | arena, [] => (arena, [])
  | arena, ref :: rest =>
    let c := arena.getD ref defaultChromosome
    let f := fitness_function w c (stats c.id)
    let res := evaluatePhase w stats (arena.set ref { c with fitness := f }) rest
    (res.1, (ref, f) :: res.2)

/-- Step 4 of `evolve_generation`, the offspring loop:
`while len(new_population) + len(offspring) < population_size`, breaking
when the breeding pool has fewer than 2 members; each iteration draws two
parents from the pool with `random.choice` and either crosses them over
(gate `random.random() < crossover_rate`) or clones them with
`copy.deepcopy`; either way two fresh chromosome objects are allocated and
appended to `offspring`.  `fuel` bounds the number of iterations; the
caller passes `population_size`, which suffices because every iteration
adds two offspring, so exhausting the fuel (`none`) is unreachable.
An out-of-range `random.choice` position, which the generator cannot
produce, also yields `none`. -/
def breedLoop (g : ℕ) (crossover_rate : ℚ) (population_size elite_count : ℕ)
    (iterRand : ℕ → IterRand) (pool : List ℕ) :
    ℕ → ℕ → List Chromosome → List ℕ → Option (List Chromosome × List ℕ)
  | 0, _, arena, offspring =>
    if elite_count + offspring.length < population_size then
      if pool.length < 2 then some (arena, offspring) else none
    else some (arena, offspring)
  | fuel + 1, i, arena, offspring =>
    if elite_count + offspring.length < population_size then
      if pool.length < 2 then some (arena, offspring)
      else
        match pool.get? (iterRand i).parent1_idx, pool.get? (iterRand i).parent2_idx with
        | some p1ref, some p2ref =>
          breedLoop g crossover_rate population_size elite_count iterRand pool fuel (i + 1)
            (arena ++
              [(if (iterRand i).u < crossover_rate then
                  _crossover g (arena.getD p1ref defaultChromosome)
                    (arena.getD p2ref defaultChromosome) (iterRand i).cross
                else (arena.getD p1ref defaultChromosome,
                  arena.getD p2ref defaultChromosome)).1,
               (if (iterRand i).u < crossover_rate then
                  _crossover g (arena.getD p1ref defaultChromosome)
                    (arena.getD p2ref defaultChromosome) (iterRand i).cross
                else (arena.getD p1ref defaultChromosome,
                  arena.getD p2ref defaultChromosome)).2])
            (offspring ++ [arena.length, arena.length + 1])
        | _, _ => none
    else some (arena, offspring)

/-- Step 5 of `evolve_generation`:
`for child in offspring: if random.random() < mutation_rate: child = self._mutate(child)`.
`_mutate` returns a fresh deep copy and the assignment only rebinds the
loop-local name `child`; no element of `offspring` is ever replaced and the
freshly built copies are dropped, so the offspring list is returned
unchanged whatever the gates `mutation_u` and draws `mutation_r` are. -/
def mutationPhase (mutation_rate : ℚ) (mutation_u : ℕ → ℚ) (mutation_r : ℕ → MutRand)
    (offspring : List ℕ) : List ℕ :=
  offspring

/-- `evolve_generation(attack_results_batch)`: evaluate, rank, preserve the
elite, select a breeding pool by tournament, breed, run the (ineffective)
mutation step, truncate and install the next population, advance the
generation counter, and append the statistics record (whose
`best_chromosome` field aliases the live best chromosome object).  Returns
the new state together with the best chromosome's arena reference
(`return sorted_population[0][0]`).  `none` models an uncaught exception
(e.g. `sorted_population[0]` on an empty population, or `random.sample` on
a population smaller than 3 when a tournament round runs). -/
noncomputable def evolve_generation (stats : String → Option AttackResults)
    (r : EvolveRand) (s : EngineState) : Option (EngineState × ℕ) :=
  match s.population with
  | [] => none
  | _ :: _ =>
    let cfg := s.config
    let evalRes := evaluatePhase cfg.fitness_weights stats s.arena s.population
    let arena1 := evalRes.1
    let fitness_scores := evalRes.2
    let sorted_population := sortDesc fitness_scores
    match sorted_population with
    | [] => none
    | best :: restSorted =>
      let best_fitness := best.2
      let avg_fitness := pyMean (fitness_scores.map Prod.snd)
      let worst_fitness := ((best :: restSorted).getLast (by simp)).2
      let new_population_elite := (sorted_population.take cfg.elite_size).map Prod.fst
      match _tournament_selection sorted_population (cfg.population_size / 2) r.tournaments with
      | none => none
      | some breeding_pool =>
        match breedLoop s.generation cfg.crossover_rate cfg.population_size
            new_population_elite.length r.iter breeding_pool cfg.population_size 0 arena1 [] with
        | none => none
        | some bred =>
          some
            ({ s with
                arena := bred.1
                population :=
                  new_population_elite ++
                    (mutationPhase cfg.mutation_rate r.mutation_u r.mutation_r bred.2).take
                      (cfg.population_size - new_population_elite.length)
                generation := s.generation + 1
                fitness_history := s.fitness_history ++
                  [{ generation := s.generation + 1
                     best_fitness := best_fitness
                     avg_fitness := avg_fitness
                     worst_fitness := worst_fitness
                     best_chromosome := best.1
                     improvement :=
                       match s.fitness_history.getLast? with
                       | some prev => best_fitness - prev.best_fitness
                       | none => 0 }]
                best_chromosome_history := s.best_chromosome_history ++ [best.1] },
              best.1)

/-! ## Construction (`__init__`, `_initialize_population`) -/

/-- The values drawn by one `_create_random_chromosome` call, in source
order (`randint`/`uniform`/`random.sample` results). -/
structure ChromDraw where
  honeypot_count : ℤ
  honeypot_types : List String
  mirage_count : ℤ
  mirage_mutation_rate : ℚ
  process_types : List String
  polymorphism_intensity : ℚ
  complexity : ℚ
  realism_level : ℚ
  diversity : ℚ
  decoy_density : ℚ
  file_types : List String
  fractal_depth : ℤ
  service_diversity : ℤ
  response_delay : ℚ
  traffic_mimicry : ℚ
  chaos_parameter : ℚ
  entropy_target : ℚ
  fractal_complexity : ℚ
  deriving Repr, DecidableEq

/-- `_create_random_chromosome()` at generation `g` with draw `d`: the
returned dictionary has no `'id'` key yet (the caller assigns it), modelled
as the empty string. -/
def _create_random_chromosome (g : ℕ) (d : ChromDraw) : Chromosome :=
  { id := ""
    honeypot_count := d.honeypot_count
    honeypot_types := d.honeypot_types
    mirage_config :=
      { count := d.mirage_count
        mutation_rate := d.mirage_mutation_rate
        process_types := d.process_types
        polymorphism_intensity := d.polymorphism_intensity }
    credential_config :=
      { complexity := d.complexity
        realism_level := d.realism_level
        diversity := d.diversity }
    filesystem_config :=
      { decoy_density := d.decoy_density
        file_types := d.file_types
        fractal_depth := d.fractal_depth }
    network_config :=
      { service_diversity := (d.service_diversity : ℚ)
        response_delay := d.response_delay
        traffic_mimicry := d.traffic_mimicry }
    math_config :=
      { chaos_parameter := d.chaos_parameter
        entropy_target := d.entropy_target
        fractal_complexity := d.fractal_complexity }
    fitness := 0
    generation_created := g
    parent_ids := [] }

/-- `GeneticDeceptionEvolver.__init__`: copy the five `GA_CONFIG`
parameters onto the instance without any validation, then
`_initialize_population`: build `population_size` random chromosomes with
ids `"gen0_chr{i}"`.  There is no conditional and no raise statement on
this path, so construction always returns a fully initialized engine. -/
def GeneticDeceptionEvolver_init (cfg : GAConfig) (draws : ℕ → ChromDraw) : EngineState :=
  let population := (List.range cfg.population_size).map (fun i =>
    { _create_random_chromosome 0 (draws i) with id := "gen0_chr" ++ toString i })
  { config := cfg
    arena := population
    population := List.range cfg.population_size
    generation := 0
    fitness_history := []
    best_chromosome_history := [] }

/-! ## Query and export (`get_best_chromosome`, `export_best_strategy`) -/

/-- `get_best_chromosome()`: `None` on an empty population, otherwise
`max(population, key=lambda x: x.get('fitness', 0))` — the first member
attaining the maximal fitness (every modelled chromosome carries the
`fitness` key, so the `.get` default never fires). -/
noncomputable def get_best_chromosome (s : EngineState) : Option Chromosome :=
  match s.population.map (fun i => s.arena.getD i defaultChromosome) with
  | [] => none
  | c :: cs => some (pyMaxBy Chromosome.fitness c cs)

/-- The deployment-ready dictionary built by `export_best_strategy`. -/
structure ExportedStrategy where
  strategy_id : String
  fitness_score : ℝ
  generation : ℕ
  honeypots_count : ℤ
  honeypots_types : List String
  mirages : MirageConfig
  credentials : CredentialConfig
  filesystem : FilesystemConfig
  network : NetworkConfig
  mathematics : MathConfig

/-- The serialization performed by `export_best_strategy` on the best
chromosome. -/
def exportStrategy (best : Chromosome) : ExportedStrategy :=
  { strategy_id := best.id
    fitness_score := best.fitness
    generation := best.generation_created
    honeypots_count := best.honeypot_count
    honeypots_types := best.honeypot_types
    mirages := best.mirage_config
    credentials := best.credential_config
    filesystem := best.filesystem_config
    network := best.network_config
    mathematics := best.math_config }

/-- `export_best_strategy()`: `None` when `get_best_chromosome` returns
`None` (a chromosome dictionary is never empty, so `if not best` is exactly
the `None` test); otherwise the serialized best chromosome. -/
noncomputable def export_best_strategy (s : EngineState) : Option ExportedStrategy :=
  (get_best_chromosome s).map exportStrategy

/-! ## Generic helper lemmas -/

theorem clamp_lb {α : Type} [LinearOrder α] (lo hi x : α) : lo ≤ max lo (min hi x) :=
  le_max_left _ _

theorem clamp_ub {α : Type} [LinearOrder α] {lo hi : α} (h : lo ≤ hi) (x : α) :
    max lo (min hi x) ≤ hi :=
  max_le h (min_le_left _ _)

/-! ## Claim C2: value ranges under mutation -/

/-- All numeric genes of a chromosome within the ranges the engine
maintains: the declared §3 ranges for every gene except the three
`credential_config` genes, which `_mutate` clamps to `[0,1]` (not to their
declared sub-ranges). -/
def ChromosomeRanges (c : Chromosome) : Prop :=
  3 ≤ c.honeypot_count ∧ c.honeypot_count ≤ 10 ∧
  5 ≤ c.mirage_config.count ∧ c.mirage_config.count ≤ 15 ∧
  1/10 ≤ c.mirage_config.mutation_rate ∧ c.mirage_config.mutation_rate ≤ 5/10 ∧
  3/10 ≤ c.mirage_config.polymorphism_intensity ∧ c.mirage_config.polymorphism_intensity ≤ 1 ∧
  0 ≤ c.credential_config.complexity ∧ c.credential_config.complexity ≤ 1 ∧
  0 ≤ c.credential_config.realism_level ∧ c.credential_config.realism_level ≤ 1 ∧
  0 ≤ c.credential_config.diversity ∧ c.credential_config.diversity ≤ 1 ∧
  1/10 ≤ c.filesystem_config.decoy_density ∧ c.filesystem_config.decoy_density ≤ 8/10 ∧
  2 ≤ c.filesystem_config.fractal_depth ∧ c.filesystem_config.fractal_depth ≤ 5 ∧
  3 ≤ c.network_config.service_diversity ∧ c.network_config.service_diversity ≤ 10 ∧
  1/10 ≤ c.network_config.response_delay ∧ c.network_config.response_delay ≤ 2 ∧
  5/10 ≤ c.network_config.traffic_mimicry ∧ c.network_config.traffic_mimicry ≤ 1 ∧
  36/10 ≤ c.math_config.chaos_parameter ∧ c.math_config.chaos_parameter ≤ 4 ∧
  6/10 ≤ c.math_config.entropy_target ∧ c.math_config.entropy_target ≤ 9/10 ∧
  4/10 ≤ c.math_config.fractal_complexity ∧ c.math_config.fractal_complexity ≤ 9/10

@[simp] theorem _mutate_honeypot_count (r : MutRand) (c : Chromosome) :
    (_mutate r c).honeypot_count =
      if r.g1 < 3/10 then max 3 (min 10 (c.honeypot_count + r.d1)) else c.honeypot_count := rfl

@[simp] theorem _mutate_mirage_count (r : MutRand) (c : Chromosome) :
    (_mutate r c).mirage_config.count =
      if r.g2 < 3/10 then max 5 (min 15 (c.mirage_config.count + r.d2))
      else c.mirage_config.count := rfl

@[simp] theorem _mutate_mirage_mutation_rate (r : MutRand) (c : Chromosome) :
    (_mutate r c).mirage_config.mutation_rate =
      if r.g3 < 3/10 then max (1/10) (min (5/10) (c.mirage_config.mutation_rate + r.u3))
      else c.mirage_config.mutation_rate := rfl

@[simp] theorem _mutate_mirage_process_types (r : MutRand) (c : Chromosome) :
    (_mutate r c).mirage_config.process_types = c.mirage_config.process_types := rfl

@[simp] theorem _mutate_mirage_polymorphism (r : MutRand) (c : Chromosome) :
    (_mutate r c).mirage_config.polymorphism_intensity =
      c.mirage_config.polymorphism_intensity := rfl

@[simp] theorem _mutate_complexity (r : MutRand) (c : Chromosome) :
    (_mutate r c).credential_config.complexity =
      if r.g4 < 3/10 then max 0 (min 1 (c.credential_config.complexity + r.u4))
      else c.credential_config.complexity := rfl

@[simp] theorem _mutate_realism_level (r : MutRand) (c : Chromosome) :
    (_mutate r c).credential_config.realism_level =
      if r.g5 < 3/10 then max 0 (min 1 (c.credential_config.realism_level + r.u5))
      else c.credential_config.realism_level := rfl

@[simp] theorem _mutate_cred_diversity (r : MutRand) (c : Chromosome) :
    (_mutate r c).credential_config.diversity =
      if r.g6 < 3/10 then max 0 (min 1 (c.credential_config.diversity + r.u6))
      else c.credential_config.diversity := rfl

@[simp] theorem _mutate_decoy_density (r : MutRand) (c : Chromosome) :
    (_mutate r c).filesystem_config.decoy_density =
      if r.g7 < 3/10 then max (1/10) (min (8/10) (c.filesystem_config.decoy_density + r.u7))
      else c.filesystem_config.decoy_density := rfl

@[simp] theorem _mutate_file_types (r : MutRand) (c : Chromosome) :
    (_mutate r c).filesystem_config.file_types = c.filesystem_config.file_types := rfl

@[simp] theorem _mutate_fractal_depth (r : MutRand) (c : Chromosome) :
    (_mutate r c).filesystem_config.fractal_depth = c.filesystem_config.fractal_depth := rfl

@[simp] theorem _mutate_service_diversity (r : MutRand) (c : Chromosome) :
    (_mutate r c).network_config.service_diversity =
      if r.g8 < 3/10 then max 3 (min 10 (c.network_config.service_diversity + (r.d8 : ℚ)))
      else c.network_config.service_diversity := rfl

@[simp] theorem _mutate_response_delay (r : MutRand) (c : Chromosome) :
    (_mutate r c).network_config.response_delay = c.network_config.response_delay := rfl

@[simp] theorem _mutate_traffic_mimicry (r : MutRand) (c : Chromosome) :
    (_mutate r c).network_config.traffic_mimicry = c.network_config.traffic_mimicry := rfl

@[simp] theorem _mutate_chaos_parameter (r : MutRand) (c : Chromosome) :
    (_mutate r c).math_config.chaos_parameter =
      if r.g9 < 3/10 then max (36/10) (min 4 (c.math_config.chaos_parameter + r.u9))
      else c.math_config.chaos_parameter := rfl

@[simp] theorem _mutate_entropy_target (r : MutRand) (c : Chromosome) :
    (_mutate r c).math_config.entropy_target = c.math_config.entropy_target := rfl

@[simp] theorem _mutate_fractal_complexity (r : MutRand) (c : Chromosome) :
    (_mutate r c).math_config.fractal_complexity = c.math_config.fractal_complexity := rfl

@[simp] theorem _mutate_id (r : MutRand) (c : Chromosome) : (_mutate r c).id = c.id := rfl

@[simp] theorem _mutate_fitness (r : MutRand) (c : Chromosome) :
    (_mutate r c).fitness = c.fitness := rfl

@[simp] theorem _mutate_honeypot_types (r : MutRand) (c : Chromosome) :
    (_mutate r c).honeypot_types = c.honeypot_types := rfl

set_option maxHeartbeats 1000000 in
theorem mutate_preserves_ranges (r : MutRand) (c : Chromosome) (h : ChromosomeRanges c) :
    ChromosomeRanges (_mutate r c) := by
  unfold ChromosomeRanges at h ⊢
  obtain ⟨a1, a2, a3, a4, a5, a6, a7, a8, a9, a10, a11, a12, a13, a14, a15, a16, a17, a18,
    a19, a20, a21, a22, a23, a24, a25, a26, a27, a28, a29, a30⟩ := h
  simp only [_mutate_honeypot_count, _mutate_mirage_count, _mutate_mirage_mutation_rate,
    _mutate_mirage_process_types, _mutate_mirage_polymorphism, _mutate_complexity,
    _mutate_realism_level, _mutate_cred_diversity, _mutate_decoy_density,
    _mutate_file_types, _mutate_fractal_depth, _mutate_service_diversity,
    _mutate_response_delay, _mutate_traffic_mimicry, _mutate_chaos_parameter,
    _mutate_entropy_target, _mutate_fractal_complexity]
  refine ⟨?_, ?_, ?_, ?_, ?_, ?_, ?_, ?_, ?_, ?_, ?_, ?_, ?_, ?_, ?_, ?_, ?_, ?_,
    ?_, ?_, ?_, ?_, ?_, ?_, ?_, ?_, ?_, ?_, ?_, ?_⟩ <;>
    first
      | assumption
      | (split <;>
          first
            | assumption
            | exact clamp_lb _ _ _
            | exact clamp_ub (by norm_num) _)

/-- Claim C2 (amended): after any sequence of `_mutate` passes, every
numeric gene stays in the range the code maintains for it; for the three
`credential_config` genes that range is the clamp interval `[0,1]` of the
source, not the declared sub-ranges `[0.3,0.9]`, `[0.5,1.0]`, `[0.4,0.9]`
of the spec. -/
theorem claim_C2_mutation_ranges (rs : List MutRand) (c : Chromosome)
    (h : ChromosomeRanges c) :
    ChromosomeRanges (rs.foldl (fun ch r => _mutate r ch) c) := by
  induction rs generalizing c with
  | nil => exact h
  | cons r rs ih => exact ih _ (mutate_preserves_ranges r c h)

/-- A concrete chromosome with every gene strictly inside its declared
range, reused by several concrete executions below. -/
def exampleChromosome : Chromosome :=
  { id := "gen0_chr0"
    honeypot_count := 5
    honeypot_types := ["ssh", "ftp", "http"]
    mirage_config :=
      { count := 10, mutation_rate := 3/10
        process_types := ["database", "web_server", "ssh_daemon", "backup_service"]
        polymorphism_intensity := 1/2 }
    credential_config := { complexity := 1/2, realism_level := 3/4, diversity := 1/2 }
    filesystem_config := { decoy_density := 1/2, file_types := ["config", "database", "backup"], fractal_depth := 3 }
    network_config := { service_diversity := 5, response_delay := 1/2, traffic_mimicry := 3/4 }
    math_config := { chaos_parameter := 38/10, entropy_target := 7/10, fractal_complexity := 1/2 }
    fitness := 0
    generation_created := 0
    parent_ids := [] }

/-- A mutation draw whose nine gates all pass and whose deltas sit at the
extremes of their supports. -/
def exampleMutRand : MutRand :=
  { g1 := 0, d1 := 2, g2 := 0, d2 := -3, g3 := 0, u3 := 1/10
    g4 := 0, u4 := -1/10, g5 := 0, u5 := 1/10, g6 := 0, u6 := -1/10
    g7 := 0, u7 := 1/10, g8 := 0, d8 := -2, g9 := 0, u9 := 1/10 }

theorem exampleChromosome_ranges : ChromosomeRanges exampleChromosome := by
  unfold ChromosomeRanges exampleChromosome
  norm_num

theorem claim_C2_witness :
    ChromosomeRanges exampleChromosome ∧
    ChromosomeRanges ([exampleMutRand, exampleMutRand].foldl (fun ch r => _mutate r ch)
      exampleChromosome) :=
  ⟨exampleChromosome_ranges,
    claim_C2_mutation_ranges [exampleMutRand, exampleMutRand] exampleChromosome
      exampleChromosome_ranges⟩

/-- A chromosome sitting at the lower edge of the declared
`credential_config.complexity` range `[0.3, 0.9]`. -/
def cexC2chromosome : Chromosome :=
  { exampleChromosome with
    credential_config := { exampleChromosome.credential_config with complexity := 3/10 } }

/-- A mutation draw that passes only the `complexity` gate, with the legal
delta `-0.1`. -/
def cexC2rand : MutRand :=
  { g1 := 1, d1 := 0, g2 := 1, d2 := 0, g3 := 1, u3 := 0
    g4 := 0, u4 := -1/10, g5 := 1, u5 := 0, g6 := 1, u6 := 0
    g7 := 1, u7 := 0, g8 := 1, d8 := 0, g9 := 1, u9 := 0 }

/-- Claim C2 counterexample: starting from `complexity = 0.3 ∈ [0.3,0.9]`,
one mutation pass with the in-support delta `-0.1` yields
`complexity = 0.2`, outside the declared range `[0.3,0.9]`: the source
clamps the credential genes with `max(0.0, min(1.0, ·))`, not to their own
ranges. -/
theorem claim_C2_cex :
    cexC2chromosome.credential_config.complexity = 3/10 ∧
    cexC2rand.u4 = -1/10 ∧ |cexC2rand.u4| ≤ 1/10 ∧
    (_mutate cexC2rand cexC2chromosome).credential_config.complexity = 2/10 ∧
    ¬(3/10 ≤ (_mutate cexC2rand cexC2chromosome).credential_config.complexity) := by
  refine ⟨rfl, rfl, by rw [abs_le]; constructor <;> norm_num [cexC2rand], ?_, ?_⟩ <;>
    norm_num [cexC2chromosome, cexC2rand, exampleChromosome]

/-! ## Claim C3: crossover children metadata -/

/-- Claim C3 (amended): each crossover child gets id
`"gen{generation}_chr{randint(1000,9999)}"` — a random draw that is *not*
guaranteed unique — `parent_ids = [p1.id, p2.id]` and
`generation_created = generation`; the `fitness` field is the one deep
copied from the respective parent, not 0. -/
theorem claim_C3_crossover_metadata (g : ℕ) (p1 p2 : Chromosome) (r : CrossRand) :
    (_crossover g p1 p2 r).1.id = "gen" ++ toString g ++ "_chr" ++ toString r.id1 ∧
    (_crossover g p1 p2 r).2.id = "gen" ++ toString g ++ "_chr" ++ toString r.id2 ∧
    (_crossover g p1 p2 r).1.parent_ids = [p1.id, p2.id] ∧
    (_crossover g p1 p2 r).2.parent_ids = [p1.id, p2.id] ∧
    (_crossover g p1 p2 r).1.generation_created = g ∧
    (_crossover g p1 p2 r).2.generation_created = g ∧
    (_crossover g p1 p2 r).1.fitness = p1.fitness ∧
    (_crossover g p1 p2 r).2.fitness = p2.fitness :=
  ⟨rfl, rfl, rfl, rfl, rfl, rfl, rfl, rfl⟩

def cexP1 : Chromosome := { exampleChromosome with id := "p1", fitness := 40 }

def cexP2 : Chromosome := { exampleChromosome with id := "p2", fitness := 7 }

/-- A crossover draw in which both `random.randint(1000, 9999)` calls
return 1000. -/
def cexCross : CrossRand :=
  { g1 := 9/10, g2 := 9/10, g3 := 9/10, g4 := 9/10
    a1 := 1/2, a2 := 1/2, a3 := 1/2, b1 := 1/2, b2 := 1/2, b3 := 1/2
    id1 := 1000, id2 := 1000 }

/-- Claim C3 counterexample: with both id draws equal to 1000 the two
siblings share the id `"gen3_chr1000"`, and child 1 keeps its parent's
fitness 40 instead of 0. -/
theorem claim_C3_cex :
    (_crossover 3 cexP1 cexP2 cexCross).1.id = (_crossover 3 cexP1 cexP2 cexCross).2.id ∧
    (_crossover 3 cexP1 cexP2 cexCross).1.fitness = 40 ∧ (40 : ℝ) ≠ 0 :=
  ⟨rfl, rfl, by norm_num⟩


/-! ## Claim C9: genetic diversity score -/

/-- Modelled from the spec (§4.2): the per-prior-state composite
`0.4 × normalized_hamming(name,name') + 0.3 × |memory−memory'|/max(memory,memory') +
0.3 × |cpu−cpu'|/100`, written as a total function (a zero denominator gives
the junk value 0 of rational division); used to compare the source against
the spec's formula and averaging set. -/
def diversity_formula_spec (cur prev : ProcState) : ℚ :=
  (4/10) * _hamming_distance cur.name prev.name +
  (3/10) * (|cur.memory - prev.memory| / max cur.memory prev.memory) +
  (3/10) * (|cur.cpu - prev.cpu| / 100)

/-- Modelled from the spec (§4.2): "average over the supplied prior states"
of `diversity_formula_spec`. -/
def diversity_average_spec (cur : ProcState) (states : List ProcState) : ℚ :=
  (states.map (diversity_formula_spec cur)).sum / (states.length : ℚ)

theorem _hamming_distance_nonneg (s1 s2 : String) : 0 ≤ _hamming_distance s1 s2 := by
  unfold _hamming_distance
  split
  · exact le_refl 0
  · positivity

theorem _hamming_distance_le_one (s1 s2 : String) : _hamming_distance s1 s2 ≤ 1 := by
  unfold _hamming_distance
  split
  · exact zero_le_one
  · rename_i hne
    have hpos : (0 : ℚ) < ((max s1.length s2.length : ℕ) : ℚ) :=
      Nat.cast_pos.mpr (Nat.pos_of_ne_zero hne)
    rw [div_le_one hpos]
    have hcount :
        (List.zip (s1.toList ++ List.replicate (max s1.length s2.length - s1.length) ' ')
          (s2.toList ++ List.replicate (max s1.length s2.length - s2.length) ' ')).countP
            (fun p => p.1 != p.2) ≤ max s1.length s2.length := by
      refine le_trans (List.countP_le_length _) ?_
      rw [List.length_zip, List.length_append, List.length_replicate,
        List.length_append, List.length_replicate]
      have e1 : s1.toList.length = s1.length := rfl
      have e2 : s2.toList.length = s2.length := rfl
      rw [e1, e2]
      omega
    exact_mod_cast hcount

theorem diversityTerm_eq_spec (cur p : ProcState) (h : max cur.memory p.memory ≠ 0) :
    diversityTerm cur p = some (diversity_formula_spec cur p) := by
  unfold diversityTerm diversity_formula_spec
  rw [if_neg h]
  exact congrArg some (by ring)

theorem diversity_formula_spec_nonneg (cur p : ProcState)
    (hm1 : 0 ≤ cur.memory) (hm2 : 0 ≤ p.memory) :
    0 ≤ diversity_formula_spec cur p := by
  unfold diversity_formula_spec
  have h1 := _hamming_distance_nonneg cur.name p.name
  have h2 : 0 ≤ |cur.memory - p.memory| / max cur.memory p.memory :=
    div_nonneg (abs_nonneg _) (le_max_of_le_left hm1)
  have h3 : 0 ≤ |cur.cpu - p.cpu| / 100 := div_nonneg (abs_nonneg _) (by norm_num)
  linarith

theorem diversity_formula_spec_le_one (cur p : ProcState)
    (h : max cur.memory p.memory ≠ 0) (hm1 : 0 ≤ cur.memory) (hm2 : 0 ≤ p.memory)
    (hcpu : |cur.cpu - p.cpu| ≤ 100) :
    diversity_formula_spec cur p ≤ 1 := by
  unfold diversity_formula_spec
  have h1 := _hamming_distance_le_one cur.name p.name
  have hmaxpos : 0 < max cur.memory p.memory :=
    lt_of_le_of_ne (le_max_of_le_left hm1) (Ne.symm h)
  have h2 : |cur.memory - p.memory| / max cur.memory p.memory ≤ 1 := by
    rw [div_le_one hmaxpos]
    rw [abs_sub_le_iff]
    constructor
    · have := le_max_left cur.memory p.memory
      linarith
    · have := le_max_right cur.memory p.memory
      linarith
  have h3 : |cur.cpu - p.cpu| / 100 ≤ 1 := by
    rw [div_le_one (by norm_num)]
    exact hcpu
  linarith

theorem diversityScores_eq_some_map (cur : ProcState) :
    ∀ l : List ProcState, (∀ p ∈ l, max cur.memory p.memory ≠ 0) →
      diversityScores cur l = some (l.map (diversity_formula_spec cur))
  | [], _ => rfl
  | x :: xs, h => by
    have hx := diversityTerm_eq_spec cur x (h x (by simp))
    have hxs := diversityScores_eq_some_map cur xs (fun p hp => h p (by simp [hp]))
    simp [diversityScores, hx, hxs]

theorem mean_bounds (l : List ℚ) (h : ∀ x ∈ l, 0 ≤ x ∧ x ≤ 1) :
    0 ≤ l.sum / (l.length : ℚ) ∧ l.sum / (l.length : ℚ) ≤ 1 := by
  rcases eq_or_ne l [] with rfl | hne
  · simp
  · have hlen : 0 < (l.length : ℚ) := by
      have := List.length_pos.mpr hne
      exact_mod_cast this
    constructor
    · exact div_nonneg (List.sum_nonneg (fun x hx => (h x hx).1)) hlen.le
    · rw [div_le_one hlen]
      calc l.sum ≤ l.length • (1 : ℚ) := List.sum_le_card_nsmul l 1 (fun x hx => (h x hx).2)
        _ = (l.length : ℚ) := by simp

/-- Claim C9 (amended): on inputs where no pair of memory values makes the
denominator `max(memory, memory')` vanish, `calculate_genetic_diversity_score`
is defined and equals the spec's per-state formula averaged over the *last
five* supplied prior states (`previous_states[-5:]`), not over all supplied
states; the value lies in `[0,1]` provided additionally that the memory
values are nonnegative and every cpu gap is at most 100; it is 0 on an empty
history.  Without those extra hypotheses the function can raise
`ZeroDivisionError` or exceed 1 (see the counterexample). -/
theorem claim_C9_diversity_score (cur : ProcState) (previous_states : List ProcState)
    (hne : ∀ p ∈ previous_states.drop (previous_states.length - 5),
      max cur.memory p.memory ≠ 0)
    (hm : 0 ≤ cur.memory)
    (hm' : ∀ p ∈ previous_states.drop (previous_states.length - 5), 0 ≤ p.memory)
    (hcpu : ∀ p ∈ previous_states.drop (previous_states.length - 5),
      |cur.cpu - p.cpu| ≤ 100) :
    ∃ v, calculate_genetic_diversity_score cur previous_states = some v ∧
      0 ≤ v ∧ v ≤ 1 ∧
      v = diversity_average_spec cur (previous_states.drop (previous_states.length - 5)) ∧
      (previous_states = [] → v = 0) := by
  by_cases hP : previous_states = []
  · subst hP
    refine ⟨0, rfl, le_refl 0, zero_le_one, ?_, fun _ => rfl⟩
    simp [diversity_average_spec]
  · have hmapM :
        diversityScores cur (previous_states.drop (previous_states.length - 5)) =
          some ((previous_states.drop (previous_states.length - 5)).map
            (diversity_formula_spec cur)) :=
      diversityScores_eq_some_map cur _ hne
    have hbounds : ∀ x ∈ (previous_states.drop (previous_states.length - 5)).map
        (diversity_formula_spec cur), 0 ≤ x ∧ x ≤ 1 := by
      intro x hx
      obtain ⟨p, hp, rfl⟩ := List.mem_map.mp hx
      exact ⟨diversity_formula_spec_nonneg cur p hm (hm' p hp),
        diversity_formula_spec_le_one cur p (hne p hp) hm (hm' p hp) (hcpu p hp)⟩
    obtain ⟨hv0, hv1⟩ := mean_bounds _ hbounds
    refine ⟨_, ?_, hv0, hv1, ?_, fun hc => absurd hc hP⟩
    · unfold calculate_genetic_diversity_score
      rw [if_neg hP]
      show (diversityScores cur (previous_states.drop (previous_states.length - 5))).bind
        (fun scores => some (scores.sum / (scores.length : ℚ))) = _
      rw [hmapM]
      rfl
    · unfold diversity_average_spec
      rw [List.length_map]

def witnessCur9 : ProcState := { name := "ab", memory := 4, cpu := 10 }

def witnessPrev9 : ProcState := { name := "ba", memory := 2, cpu := 30 }

theorem claim_C9_witness :
    calculate_genetic_diversity_score witnessCur9 [witnessPrev9] ≠ none := by
  obtain ⟨v, hv, -⟩ := claim_C9_diversity_score witnessCur9 [witnessPrev9]
    (by
      intro p hp
      rcases List.mem_singleton.mp hp with rfl
      norm_num [witnessCur9, witnessPrev9])
    (by norm_num [witnessCur9])
    (by
      intro p hp
      rcases List.mem_singleton.mp hp with rfl
      norm_num [witnessPrev9])
    (by
      intro p hp
      rcases List.mem_singleton.mp hp with rfl
      rw [abs_le]
      constructor <;> norm_num [witnessCur9, witnessPrev9])
  rw [hv]
  exact Option.some_ne_none v

theorem _hamming_distance_self (s : String) : _hamming_distance s s = 0 := by
  unfold _hamming_distance
  split
  · rfl
  · have hz : ∀ l : List Char, (List.zip l l).countP (fun p => p.1 != p.2) = 0 := by
      intro l
      induction l with
      | nil => rfl
      | cons x xs ih => simp [List.countP_cons, ih]
    simp [hz]

/-- Current state whose memory is 0, like its one previous state. -/
def cexDivZero : ProcState := { name := "m", memory := 0, cpu := 0 }

/-- A current state for parts 2 and 3 of the counterexample. -/
def cexDivCur : ProcState := { name := "x", memory := 1, cpu := 400 }

/-- A previous state 400 cpu points away from `cexDivCur`. -/
def cexDivFar : ProcState := { name := "x", memory := 1, cpu := 0 }

/-- A previous state 100 cpu points away from `cexDivCur`. -/
def cexDivNear : ProcState := { name := "x", memory := 1, cpu := 300 }

/-- Claim C9 counterexample.  (1) With both memory values 0 the division
`abs(...) / max(memory, memory')` divides by zero and the call raises
(`none`), so the division-by-zero branch *is* reachable on the documented
domain.  (2) With a cpu gap of 400 the score is 1.2 ∉ [0,1].  (3) With six
previous states the source averages only the last five (`[-5:]`), dropping
the first supplied state, so the result 0 differs from the spec's average
1/20 over all supplied states. -/
theorem claim_C9_cex :
    calculate_genetic_diversity_score cexDivZero [cexDivZero] = none ∧
    (calculate_genetic_diversity_score cexDivCur [cexDivFar] = some (12/10) ∧
      ¬((12/10 : ℚ) ≤ 1)) ∧
    (calculate_genetic_diversity_score cexDivCur
        [cexDivNear, cexDivCur, cexDivCur, cexDivCur, cexDivCur, cexDivCur] = some 0 ∧
      diversity_average_spec cexDivCur
        [cexDivNear, cexDivCur, cexDivCur, cexDivCur, cexDivCur, cexDivCur] = 1/20 ∧
      (0 : ℚ) ≠ 1/20) := by
  refine ⟨?_, ⟨?_, by norm_num⟩, ⟨?_, ?_, by norm_num⟩⟩
  · simp [calculate_genetic_diversity_score, diversityScores, diversityTerm, cexDivZero]
  · simp [calculate_genetic_diversity_score, diversityScores, diversityTerm, cexDivCur,
      cexDivFar, _hamming_distance_self]
    norm_num
  · simp [calculate_genetic_diversity_score, diversityScores, diversityTerm, cexDivCur,
      cexDivNear, _hamming_distance_self]
  · simp [diversity_average_spec, diversity_formula_spec, cexDivCur, cexDivNear,
      _hamming_distance_self]
    norm_num

/-! ## Claim C4: fitness bounds -/

theorem list_sum_nonpos : ∀ l : List ℝ, (∀ x ∈ l, x ≤ 0) → l.sum ≤ 0
  | [], _ => by simp
  | x :: xs, h => by
    simp only [List.sum_cons]
    have hx := h x (by simp)
    have hxs := list_sum_nonpos xs (fun y hy => h y (by simp [hy]))
    linarith

theorem entropySummand_nonpos (total : ℚ) (freq : ℕ) (h : (freq : ℚ) ≤ total) :
    entropySummand total freq ≤ 0 := by
  unfold entropySummand
  split
  · rename_i hp
    have hfreq : (0 : ℚ) ≤ (freq : ℚ) := Nat.cast_nonneg freq
    have htotal : (0 : ℚ) < total := by
      by_contra hle
      push_neg at hle
      have : (freq : ℚ) / total ≤ 0 := div_nonpos_of_nonneg_of_nonpos hfreq hle
      linarith
    have hp1 : (freq : ℚ) / total ≤ 1 := (div_le_one htotal).mpr h
    have hlogb : Real.logb 2 (((freq : ℚ) / total : ℚ) : ℝ) ≤ 0 := by
      refine Real.logb_nonpos (by norm_num) ?_ ?_
      · exact_mod_cast le_of_lt hp
      · exact_mod_cast hp1
    have hpr : (0 : ℝ) ≤ (((freq : ℚ) / total : ℚ) : ℝ) := by exact_mod_cast le_of_lt hp
    nlinarith
  · exact le_refl 0

theorem calculate_entropy_nonneg (data : String) : 0 ≤ calculate_entropy data := by
  unfold calculate_entropy
  split
  · exact le_refl 0
  · refine neg_nonneg.mpr (list_sum_nonpos _ ?_)
    intro x hx
    obtain ⟨ch, hch, rfl⟩ := List.mem_map.mp hx
    refine entropySummand_nonpos _ _ ?_
    exact_mod_cast List.count_le_length ch data.toList

theorem chromosome_diversity_nonneg (c : Chromosome) :
    0 ≤ _calculate_chromosome_diversity c := by
  unfold _calculate_chromosome_diversity
  refine le_min ?_ zero_le_one
  have := calculate_entropy_nonneg (pyListStr
    [ (c.honeypot_count : ℚ)
    , (c.mirage_config.count : ℚ)
    , c.mirage_config.mutation_rate
    , c.credential_config.complexity
    , c.filesystem_config.decoy_density
    , c.network_config.service_diversity ])
  linarith

theorem chromosome_diversity_le_one (c : Chromosome) :
    _calculate_chromosome_diversity c ≤ 1 := by
  unfold _calculate_chromosome_diversity
  exact min_le_right _ _

theorem fitness_formula_bounds (E D C : ℚ) (V : ℝ)
    (hE0 : 0 ≤ E) (hE1 : E ≤ 1) (hD0 : 0 ≤ D) (hD1 : D ≤ 1)
    (hC0 : 0 ≤ C) (hC1 : C ≤ 1) (hV0 : 0 ≤ V) (hV1 : V ≤ 1) :
    0 ≤ (((E * (3/10) + D * (25/100) + C * (25/100) : ℚ) : ℝ) +
        V * ((2/10 : ℚ) : ℝ)) * 1000 ∧
    (((E * (3/10) + D * (25/100) + C * (25/100) : ℚ) : ℝ) +
        V * ((2/10 : ℚ) : ℝ)) * 1000 ≤ 1000 := by
  have hq1 : (0 : ℚ) ≤ E * (3/10) + D * (25/100) + C * (25/100) := by nlinarith
  have hq2 : E * (3/10) + D * (25/100) + C * (25/100) ≤ 8/10 := by nlinarith
  have hr1 : (0 : ℝ) ≤ ((E * (3/10) + D * (25/100) + C * (25/100) : ℚ) : ℝ) := by
    exact_mod_cast hq1
  have hr2 : ((E * (3/10) + D * (25/100) + C * (25/100) : ℚ) : ℝ) ≤ 8/10 := by
    have : ((8/10 : ℚ) : ℝ) = 8/10 := by norm_num
    rw [← this]
    exact_mod_cast hq2
  have hw : ((2/10 : ℚ) : ℝ) = 2/10 := by norm_num
  rw [hw]
  constructor <;> nlinarith

/-- Claim C4 (amended): `fitness_function` is 0 on missing/empty stats, and
lies in `[0, 1000]` on the documented domain *strengthened by*
`failed_exploits ≤ total_attempts` and `repeated_attempts ≤ total_attempts`;
without those two extra conditions the confusion factor
`failed/total*0.5 + repeated/total*0.3 + 0.2` is unbounded and the fitness
exceeds 1000 (see the counterexample). -/
theorem claim_C4_fitness_bounds (c : Chromosome) (a : AttackResults)
    (ht : 0 ≤ a.total_interaction_time) (hd : 0 ≤ a.data_points_collected)
    (hf : 0 ≤ a.failed_exploits) (hr : 0 ≤ a.repeated_attempts)
    (h1 : 1 ≤ a.total_attempts)
    (hf' : a.failed_exploits ≤ a.total_attempts)
    (hr' : a.repeated_attempts ≤ a.total_attempts) :
    fitness_function GA_CONFIG.fitness_weights c none = 0 ∧
    0 ≤ fitness_function GA_CONFIG.fitness_weights c (some a) ∧
    fitness_function GA_CONFIG.fitness_weights c (some a) ≤ 1000 := by
  have hE0 : (0 : ℚ) ≤ min (a.total_interaction_time / 120) 1 :=
    le_min (div_nonneg ht (by norm_num)) zero_le_one
  have hE1 : min (a.total_interaction_time / 120) 1 ≤ 1 := min_le_right _ _
  have hD0 : (0 : ℚ) ≤ min (a.data_points_collected / 100) 1 :=
    le_min (div_nonneg hd (by norm_num)) zero_le_one
  have hD1 : min (a.data_points_collected / 100) 1 ≤ 1 := min_le_right _ _
  have htpos : (0 : ℚ) < a.total_attempts := lt_of_lt_of_le zero_lt_one h1
  have hmax : max a.total_attempts 1 = a.total_attempts := max_eq_left h1
  have hmaxpos : (0 : ℚ) < max a.total_attempts 1 := by rw [hmax]; exact htpos
  have hfd0 : (0 : ℚ) ≤ a.failed_exploits / max a.total_attempts 1 :=
    div_nonneg hf hmaxpos.le
  have hrd0 : (0 : ℚ) ≤ a.repeated_attempts / max a.total_attempts 1 :=
    div_nonneg hr hmaxpos.le
  have hfd1 : a.failed_exploits / max a.total_attempts 1 ≤ 1 := by
    rw [hmax]
    exact (div_le_one htpos).mpr hf'
  have hrd1 : a.repeated_attempts / max a.total_attempts 1 ≤ 1 := by
    rw [hmax]
    exact (div_le_one htpos).mpr hr'
  have hif0 : (0 : ℚ) ≤ (if a.abandoned then (2 : ℚ)/10 else 0) := by split <;> norm_num
  have hif1 : (if a.abandoned then (2 : ℚ)/10 else 0) ≤ 2/10 := by split <;> norm_num
  have hC0 : (0 : ℚ) ≤ a.failed_exploits / max a.total_attempts 1 * (5/10) +
      a.repeated_attempts / max a.total_attempts 1 * (3/10) +
      (if a.abandoned then (2 : ℚ)/10 else 0) := by nlinarith
  have hC1 : a.failed_exploits / max a.total_attempts 1 * (5/10) +
      a.repeated_attempts / max a.total_attempts 1 * (3/10) +
      (if a.abandoned then (2 : ℚ)/10 else 0) ≤ 1 := by nlinarith
  obtain ⟨hlo, hhi⟩ := fitness_formula_bounds
    (min (a.total_interaction_time / 120) 1)
    (min (a.data_points_collected / 100) 1)
    (a.failed_exploits / max a.total_attempts 1 * (5/10) +
      a.repeated_attempts / max a.total_attempts 1 * (3/10) +
      (if a.abandoned then (2 : ℚ)/10 else 0))
    (_calculate_chromosome_diversity c)
    hE0 hE1 hD0 hD1 hC0 hC1
    (chromosome_diversity_nonneg c) (chromosome_diversity_le_one c)
  exact ⟨rfl, hlo, hhi⟩

def witnessStats4 : AttackResults :=
  { total_interaction_time := 120, data_points_collected := 50, failed_exploits := 1
    repeated_attempts := 0, abandoned := true, total_attempts := 2 }

theorem claim_C4_witness :
    fitness_function GA_CONFIG.fitness_weights exampleChromosome none = 0 ∧
    0 ≤ fitness_function GA_CONFIG.fitness_weights exampleChromosome (some witnessStats4) ∧
    fitness_function GA_CONFIG.fitness_weights exampleChromosome (some witnessStats4) ≤ 1000 :=
  claim_C4_fitness_bounds exampleChromosome witnessStats4
    (by norm_num [witnessStats4]) (by norm_num [witnessStats4]) (by norm_num [witnessStats4])
    (by norm_num [witnessStats4]) (by norm_num [witnessStats4]) (by norm_num [witnessStats4])
    (by norm_num [witnessStats4])

/-- Telemetry inside the documented domain (all counts nonnegative,
`total_attempts ≥ 1`) whose failed-exploit count exceeds the attempt
count. -/
def cexStats4 : AttackResults :=
  { total_interaction_time := 0, data_points_collected := 0, failed_exploits := 1000
    repeated_attempts := 0, abandoned := false, total_attempts := 1 }

/-- Claim C4 counterexample: on the documented domain the fitness is *not*
bounded by 1000 — with 1000 failed exploits against 1 attempt the confusion
factor is 500 and the fitness is at least 125000. -/
theorem claim_C4_cex :
    (0 : ℚ) ≤ cexStats4.total_interaction_time ∧
    (0 : ℚ) ≤ cexStats4.data_points_collected ∧
    (0 : ℚ) ≤ cexStats4.failed_exploits ∧
    (0 : ℚ) ≤ cexStats4.repeated_attempts ∧
    (1 : ℚ) ≤ cexStats4.total_attempts ∧
    ¬(fitness_function GA_CONFIG.fitness_weights exampleChromosome (some cexStats4) ≤ 1000) := by
  refine ⟨by norm_num [cexStats4], by norm_num [cexStats4], by norm_num [cexStats4],
    by norm_num [cexStats4], by norm_num [cexStats4], ?_⟩
  have heq : fitness_function GA_CONFIG.fitness_weights exampleChromosome (some cexStats4) =
      (((min ((0 : ℚ)/120) 1 * (3/10) + min ((0 : ℚ)/100) 1 * (25/100) +
        ((1000 : ℚ) / max 1 1 * (5/10) + (0 : ℚ) / max 1 1 * (3/10) + 0) * (25/100) : ℚ) : ℝ) +
        _calculate_chromosome_diversity exampleChromosome * ((2/10 : ℚ) : ℝ)) * 1000 := rfl
  have hq : (min ((0 : ℚ)/120) 1 * (3/10) + min ((0 : ℚ)/100) 1 * (25/100) +
      ((1000 : ℚ) / max 1 1 * (5/10) + (0 : ℚ) / max 1 1 * (3/10) + 0) * (25/100) : ℚ) = 125 := by
    norm_num [min_def, max_def]
  rw [heq, hq]
  have hV := chromosome_diversity_nonneg exampleChromosome
  have h125 : ((125 : ℚ) : ℝ) = 125 := by norm_num
  have hw : ((2/10 : ℚ) : ℝ) = 2/10 := by norm_num
  rw [h125, hw]
  intro hle
  nlinarith

/-! ## Claim C5: construction -/

/-- Claim C5 (amended): `__init__` validates nothing.  For *every*
configuration — including `population_size < 2`, `elite_size >
population_size`, and rates outside `[0,1]` — construction succeeds and
yields a fully initialized engine with a fresh random population of exactly
`population_size` chromosomes, generation 0 and empty histories. -/
theorem claim_C5_construction (cfg : GAConfig) (draws : ℕ → ChromDraw) :
    (GeneticDeceptionEvolver_init cfg draws).population.length = cfg.population_size ∧
    (GeneticDeceptionEvolver_init cfg draws).arena.length = cfg.population_size ∧
    (GeneticDeceptionEvolver_init cfg draws).generation = 0 ∧
    (GeneticDeceptionEvolver_init cfg draws).fitness_history = [] ∧
    (GeneticDeceptionEvolver_init cfg draws).config = cfg := by
  refine ⟨?_, ?_, rfl, rfl, rfl⟩ <;> simp [GeneticDeceptionEvolver_init]

/-- A configuration violating all three §7 `ConfigurationError` conditions
at once. -/
def cexBadConfig : GAConfig :=
  { population_size := 1
    mutation_rate := 3/2
    crossover_rate := 8/10
    elite_size := 4
    fitness_weights := GA_CONFIG.fitness_weights }

/-- A fixed draw for `_create_random_chromosome`. -/
def exampleDraw : ChromDraw :=
  { honeypot_count := 5
    honeypot_types := ["ssh", "ftp", "http"]
    mirage_count := 10
    mirage_mutation_rate := 3/10
    process_types := ["database", "web_server", "ssh_daemon", "backup_service"]
    polymorphism_intensity := 1/2
    complexity := 1/2
    realism_level := 3/4
    diversity := 1/2
    decoy_density := 1/2
    file_types := ["config", "database", "backup"]
    fractal_depth := 3
    service_diversity := 5
    response_delay := 1/2
    traffic_mimicry := 3/4
    chaos_parameter := 38/10
    entropy_target := 7/10
    fractal_complexity := 1/2 }

/-- Claim C5 counterexample: with `population_size = 1 < 2`,
`elite_size = 4 > 1` and `mutation_rate = 1.5 ∉ [0,1]`, construction does
*not* fail: a fully initialized engine with a population of one chromosome
is produced, because `__init__` contains no validation at all. -/
theorem claim_C5_cex :
    cexBadConfig.population_size < 2 ∧
    cexBadConfig.elite_size > cexBadConfig.population_size ∧
    ¬(cexBadConfig.mutation_rate ≤ 1) ∧
    (GeneticDeceptionEvolver_init cexBadConfig (fun _ => exampleDraw)).population.length = 1 ∧
    (GeneticDeceptionEvolver_init cexBadConfig (fun _ => exampleDraw)).generation = 0 := by
  refine ⟨by norm_num [cexBadConfig], by norm_num [cexBadConfig],
    by norm_num [cexBadConfig], ?_, rfl⟩
  simp [GeneticDeceptionEvolver_init, cexBadConfig]

/-! ## Claim C10: best chromosome and export on an empty population -/

theorem pyMaxBy_mem {α : Type} (key : α → ℝ) (h : α) (t : List α) :
    pyMaxBy key h t = h ∨ pyMaxBy key h t ∈ t := by
  unfold pyMaxBy
  induction t generalizing h with
  | nil => exact Or.inl rfl
  | cons x xs ih =>
    simp only [List.foldl_cons]
    by_cases hc : key x > key h
    · rw [if_pos hc]
      rcases ih x with h1 | h1
      · exact Or.inr (by rw [h1]; exact List.mem_cons_self x xs)
      · exact Or.inr (List.mem_cons_of_mem x h1)
    · rw [if_neg hc]
      rcases ih h with h1 | h1
      · exact Or.inl h1
      · exact Or.inr (List.mem_cons_of_mem x h1)

theorem pyMaxBy_ge {α : Type} (key : α → ℝ) (h : α) (t : List α) :
    key h ≤ key (pyMaxBy key h t) ∧ ∀ x ∈ t, key x ≤ key (pyMaxBy key h t) := by
  unfold pyMaxBy
  induction t generalizing h with
  | nil => exact ⟨le_refl _, by simp⟩
  | cons x xs ih =>
    simp only [List.foldl_cons]
    by_cases hc : key x > key h
    · rw [if_pos hc]
      obtain ⟨h1, h2⟩ := ih x
      refine ⟨le_trans (le_of_lt hc) h1, ?_⟩
      intro y hy
      rcases List.mem_cons.mp hy with rfl | hy'
      · exact h1
      · exact h2 y hy'
    · rw [if_neg hc]
      obtain ⟨h1, h2⟩ := ih h
      push_neg at hc
      refine ⟨h1, ?_⟩
      intro y hy
      rcases List.mem_cons.mp hy with rfl | hy'
      · exact le_trans hc h1
      · exact h2 y hy'

/-- Claim C10: on an empty population both `get_best_chromosome` and
`export_best_strategy` return `None` rather than raising; on a non-empty
population they operate on a chromosome of maximum fitness (the first such
member, per Python's `max`). -/
theorem claim_C10_best_and_export (s : EngineState) :
    (s.population = [] → get_best_chromosome s = none ∧ export_best_strategy s = none) ∧
    (s.population ≠ [] →
      ∃ best, get_best_chromosome s = some best ∧
        best ∈ s.population.map (fun i => s.arena.getD i defaultChromosome) ∧
        (∀ c ∈ s.population.map (fun i => s.arena.getD i defaultChromosome),
          c.fitness ≤ best.fitness) ∧
        export_best_strategy s = some (exportStrategy best)) := by
  constructor
  · intro hP
    constructor
    · simp [get_best_chromosome, hP]
    · simp [export_best_strategy, get_best_chromosome, hP]
  · intro hP
    rcases hML : s.population.map (fun i => s.arena.getD i defaultChromosome) with _ | ⟨c, cs⟩
    · exact absurd (List.map_eq_nil_iff.mp hML) hP
    · refine ⟨pyMaxBy Chromosome.fitness c cs, ?_, ?_, ?_, ?_⟩
      · unfold get_best_chromosome
        rw [hML]
      · rcases pyMaxBy_mem Chromosome.fitness c cs with h1 | h1
        · rw [h1]; exact List.mem_cons_self c cs
        · exact List.mem_cons_of_mem c h1
      · intro y hy
        rcases List.mem_cons.mp hy with rfl | hy'
        · exact (pyMaxBy_ge Chromosome.fitness y cs).1
        · exact (pyMaxBy_ge Chromosome.fitness c cs).2 y hy'
      · unfold export_best_strategy get_best_chromosome
        rw [hML]
        rfl

/-- An engine state with an empty live population. -/
def cexEmptyState : EngineState :=
  { config := GA_CONFIG, arena := [], population := [], generation := 0
    fitness_history := [], best_chromosome_history := [] }

/-- An engine state with two live chromosomes. -/
def witnessState10 : EngineState :=
  { config := GA_CONFIG
    arena := [exampleChromosome, { exampleChromosome with id := "gen0_chr1", fitness := 5 }]
    population := [0, 1]
    generation := 0
    fitness_history := []
    best_chromosome_history := [] }

theorem claim_C10_witness :
    (get_best_chromosome cexEmptyState = none ∧ export_best_strategy cexEmptyState = none) ∧
    get_best_chromosome witnessState10 ≠ none := by
  constructor
  · exact (claim_C10_best_and_export cexEmptyState).1 rfl
  · obtain ⟨best, hbest, -, -, -⟩ :=
      (claim_C10_best_and_export witnessState10).2 (by simp [witnessState10])
    rw [hbest]
    exact Option.some_ne_none best

/-! ## Structural lemmas about the evolution step -/

theorem evaluatePhase_arena_length (w : FitnessWeights) (stats : String → Option AttackResults) :
    ∀ (refs : List ℕ) (arena : List Chromosome),
      (evaluatePhase w stats arena refs).1.length = arena.length
  | [], _ => rfl
  | ref :: rest, arena => by
    simp only [evaluatePhase]
    rw [evaluatePhase_arena_length w stats rest]
    simp

theorem evaluatePhase_scores_fst (w : FitnessWeights) (stats : String → Option AttackResults) :
    ∀ (refs : List ℕ) (arena : List Chromosome),
      ((evaluatePhase w stats arena refs).2).map Prod.fst = refs
  | [], _ => rfl
  | ref :: rest, arena => by
    simp only [evaluatePhase, List.map_cons]
    rw [evaluatePhase_scores_fst w stats rest]

theorem evaluatePhase_getElem_not_mem (w : FitnessWeights) (stats : String → Option AttackResults) :
    ∀ (refs : List ℕ) (arena : List Chromosome) (j : ℕ), j ∉ refs →
      (evaluatePhase w stats arena refs).1[j]? = arena[j]?
  | [], _, _, _ => rfl
  | ref :: rest, arena, j, h => by
    simp only [List.mem_cons, not_or] at h
    obtain ⟨h1, h2⟩ := h
    simp only [evaluatePhase]
    rw [evaluatePhase_getElem_not_mem w stats rest _ j h2]
    exact List.getElem?_set_ne (fun e => h1 e.symm)

theorem evaluatePhase_score_mem (w : FitnessWeights) (stats : String → Option AttackResults) :
    ∀ (refs : List ℕ) (arena : List Chromosome), refs.Nodup →
      (∀ i ∈ refs, i < arena.length) →
      ∀ pr ∈ (evaluatePhase w stats arena refs).2,
        ∃ ch, (evaluatePhase w stats arena refs).1[pr.1]? = some ch ∧ ch.fitness = pr.2
  | [], _, _, _, pr, hpr => absurd hpr (by simp [evaluatePhase])
  | ref :: rest, arena, hnd, hwf, pr, hpr => by
    obtain ⟨h1, h2⟩ := List.nodup_cons.mp hnd
    simp only [evaluatePhase] at hpr ⊢
    rw [List.mem_cons] at hpr
    rcases hpr with rfl | hpr
    · refine ⟨{ arena.getD ref defaultChromosome with
          fitness := fitness_function w (arena.getD ref defaultChromosome)
            (stats (arena.getD ref defaultChromosome).id) }, ?_, rfl⟩
      rw [evaluatePhase_getElem_not_mem w stats rest _ ref h1]
      exact List.getElem?_set_eq_of_lt _ (hwf ref (by simp))
    · exact evaluatePhase_score_mem w stats rest _ h2
        (fun i hi => by rw [List.length_set]; exact hwf i (by simp [hi])) pr hpr

theorem mem_insertDesc {x y : ℕ × ℝ} : ∀ {l : List (ℕ × ℝ)},
    y ∈ insertDesc x l ↔ y = x ∨ y ∈ l := by
  intro l
  induction l with
  | nil => simp [insertDesc]
  | cons z zs ih =>
    unfold insertDesc
    split
    · simp [List.mem_cons]
    · simp only [List.mem_cons, ih]
      tauto

theorem mem_sortDesc {y : ℕ × ℝ} : ∀ {l : List (ℕ × ℝ)}, y ∈ sortDesc l ↔ y ∈ l := by
  intro l
  induction l with
  | nil => simp [sortDesc]
  | cons x xs ih =>
    simp only [sortDesc, mem_insertDesc, ih, List.mem_cons]

theorem breedLoop_arena_extend (g : ℕ) (cr : ℚ) (ps ec : ℕ) (ir : ℕ → IterRand)
    (pool : List ℕ) :
    ∀ (fuel i : ℕ) (arena : List Chromosome) (off : List ℕ) (out : List Chromosome × List ℕ),
      breedLoop g cr ps ec ir pool fuel i arena off = some out →
      ∃ t, out.1 = arena ++ t := by
  intro fuel
  induction fuel with
  | zero =>
    intro i arena off out h
    unfold breedLoop at h
    split at h
    · split at h
      · exact ⟨[], by simp [← Option.some.inj h]⟩
      · simp at h
    · exact ⟨[], by simp [← Option.some.inj h]⟩
  | succ fuel ih =>
    intro i arena off out h
    unfold breedLoop at h
    split at h
    · split at h
      · exact ⟨[], by simp [← Option.some.inj h]⟩
      · cases hg1 : pool.get? (ir i).parent1_idx with
        | none => rw [hg1] at h; simp at h
        | some p1 =>
          cases hg2 : pool.get? (ir i).parent2_idx with
          | none => rw [hg1, hg2] at h; simp at h
          | some p2 =>
            rw [hg1, hg2] at h
            obtain ⟨t, ht⟩ := ih (i + 1) _ _ out h
            exact ⟨_, ht.trans (List.append_assoc arena _ t)⟩
    · exact ⟨[], by simp [← Option.some.inj h]⟩

/-- Inversion of a successful `evolve_generation` call: names the ranked
list, the breeding pool, the bred arena/offspring, and characterizes every
component of the installed state. -/
theorem evolve_generation_some_elim {stats : String → Option AttackResults}
    {r : EvolveRand} {s : EngineState} {out : EngineState × ℕ}
    (h : evolve_generation stats r s = some out) :
    ∃ best restSorted breeding_pool bred,
      s.population ≠ [] ∧
      sortDesc (evaluatePhase s.config.fitness_weights stats s.arena s.population).2 =
        best :: restSorted ∧
      _tournament_selection (best :: restSorted) (s.config.population_size / 2) r.tournaments =
        some breeding_pool ∧
      breedLoop s.generation s.config.crossover_rate s.config.population_size
        (((best :: restSorted).take s.config.elite_size).map Prod.fst).length r.iter
        breeding_pool s.config.population_size 0
        (evaluatePhase s.config.fitness_weights stats s.arena s.population).1 [] = some bred ∧
      out.2 = best.1 ∧
      out.1.arena = bred.1 ∧
      out.1.population = ((best :: restSorted).take s.config.elite_size).map Prod.fst ++
        bred.2.take (s.config.population_size -
          (((best :: restSorted).take s.config.elite_size).map Prod.fst).length) ∧
      out.1.generation = s.generation + 1 ∧
      (∃ rec, out.1.fitness_history = s.fitness_history ++ [rec] ∧
        rec.best_chromosome = best.1 ∧ rec.best_fitness = best.2) ∧
      out.1.best_chromosome_history = s.best_chromosome_history ++ [best.1] ∧
      out.1.config = s.config := by
  revert h
  unfold evolve_generation
  cases hpop : s.population with
  | nil => intro h; simp at h
  | cons p ps =>
    dsimp only
    cases hsort : sortDesc (evaluatePhase s.config.fitness_weights stats s.arena (p :: ps)).2 with
    | nil => intro h; simp at h
    | cons best restSorted =>
      cases htour : _tournament_selection (best :: restSorted)
          (s.config.population_size / 2) r.tournaments with
      | none => intro h; simp at h
      | some breeding_pool =>
        cases hbred : breedLoop s.generation s.config.crossover_rate s.config.population_size
            (((best :: restSorted).take s.config.elite_size).map Prod.fst).length r.iter
            breeding_pool s.config.population_size 0
            (evaluatePhase s.config.fitness_weights stats s.arena (p :: ps)).1 [] with
        | none =>
          intro h
          dsimp only at h
          rw [hbred] at h
          simp at h
        | some bred =>
          intro h
          dsimp only at h
          rw [hbred] at h
          simp only [Option.some.injEq] at h
          subst h
          exact ⟨best, restSorted, breeding_pool, bred, by simp, rfl, htour, hbred,
            rfl, rfl, rfl, rfl, ⟨_, rfl, rfl, rfl⟩, rfl, rfl⟩

/-! ## Claims C6, C7, C8: tournament, history, elitism -/

theorem tournamentRound_some_elim {sorted : List (ℕ × ℝ)} {idxs : List ℕ} {w : ℕ}
    (h : tournamentRound sorted idxs = some w) :
    idxs.length = 3 ∧ idxs.Nodup ∧ (∀ j ∈ idxs, j < sorted.length) ∧
    ∃ winner ∈ idxs.map (fun j => sorted.getD j (0, 0)), winner.1 = w ∧
      ∀ q ∈ idxs.map (fun j => sorted.getD j (0, 0)), q.2 ≤ winner.2 := by
  unfold tournamentRound at h
  split at h
  · rename_i hcond
    obtain ⟨h3, hnd, hbound⟩ := hcond
    rcases hML : idxs.map (fun j => sorted.getD j (0, 0)) with _ | ⟨t, ts⟩
    · rw [hML] at h; simp at h
    · rw [hML] at h
      simp only [Option.some.injEq] at h
      refine ⟨h3, hnd, hbound, pyMaxBy Prod.snd t ts, ?_, h, ?_⟩
      · rcases pyMaxBy_mem Prod.snd t ts with h1 | h1
        · rw [h1]; exact List.mem_cons_self t ts
        · exact List.mem_cons_of_mem t h1
      · intro q hq
        rcases List.mem_cons.mp hq with rfl | hq'
        · exact (pyMaxBy_ge Prod.snd q ts).1
        · exact (pyMaxBy_ge Prod.snd t ts).2 q hq'
  · simp at h

theorem tournamentLoop_spec (sorted : List (ℕ × ℝ)) (samples : ℕ → List ℕ) :
    ∀ (n i : ℕ) (pool : List ℕ),
      tournamentLoop sorted samples i n = some pool →
      pool.length = n ∧
      ∀ k, k < n →
        ∃ w, tournamentRound sorted (samples (i + k)) = some w ∧ pool[k]? = some w
  | 0, i, pool, h => by
    obtain rfl := (Option.some.inj h).symm
    exact ⟨rfl, fun k hk => absurd hk (Nat.not_lt_zero k)⟩
  | n + 1, i, pool, h => by
    unfold tournamentLoop at h
    cases hr : tournamentRound sorted (samples i) with
    | none => rw [hr] at h; simp at h
    | some w =>
      cases hrest : tournamentLoop sorted samples (i + 1) n with
      | none => rw [hr, hrest] at h; simp at h
      | some rest =>
        rw [hr, hrest] at h
        simp only [Option.some.injEq] at h
        subst h
        obtain ⟨hlen, hall⟩ := tournamentLoop_spec sorted samples n (i + 1) rest hrest
        refine ⟨by simp [hlen], ?_⟩
        intro k hk
        cases k with
        | zero =>
          refine ⟨w, ?_, by simp⟩
          rw [Nat.add_zero]
          exact hr
        | succ k =>
          obtain ⟨w', hw', hp⟩ := hall k (by omega)
          refine ⟨w', ?_, by simpa using hp⟩
          rw [show i + (k + 1) = (i + 1) + k by omega]
          exact hw'

/-- Claim C6 (amended): the ELITE_SELECTED→BRED transition builds a
breeding pool of size `population_size/2` (integer division) by repeated
tournament rounds; each round samples 3 *distinct* chromosomes from the
ranked population — `random.sample` samples *without* replacement, not with
replacement as the spec says — and selects as winner the first sampled
entry of maximal fitness. -/
theorem claim_C6_breeding_pool :
    (∀ (sorted : List (ℕ × ℝ)) (rounds : ℕ) (samples : ℕ → List ℕ) (pool : List ℕ),
      _tournament_selection sorted rounds samples = some pool →
      pool.length = rounds ∧
      ∀ k, k < rounds →
        (samples k).length = 3 ∧ (samples k).Nodup ∧
        (∀ j ∈ samples k, j < sorted.length) ∧
        ∃ winner ∈ (samples k).map (fun j => sorted.getD j (0, 0)),
          pool[k]? = some winner.1 ∧
          ∀ q ∈ (samples k).map (fun j => sorted.getD j (0, 0)), q.2 ≤ winner.2) ∧
    (∀ (stats : String → Option AttackResults) (r : EvolveRand) (s : EngineState)
        (out : EngineState × ℕ),
      evolve_generation stats r s = some out →
      ∃ pool, _tournament_selection
          (sortDesc (evaluatePhase s.config.fitness_weights stats s.arena s.population).2)
          (s.config.population_size / 2) r.tournaments = some pool ∧
        pool.length = s.config.population_size / 2) := by
  have main : ∀ (sorted : List (ℕ × ℝ)) (rounds : ℕ) (samples : ℕ → List ℕ) (pool : List ℕ),
      _tournament_selection sorted rounds samples = some pool →
      pool.length = rounds ∧
      ∀ k, k < rounds →
        (samples k).length = 3 ∧ (samples k).Nodup ∧
        (∀ j ∈ samples k, j < sorted.length) ∧
        ∃ winner ∈ (samples k).map (fun j => sorted.getD j (0, 0)),
          pool[k]? = some winner.1 ∧
          ∀ q ∈ (samples k).map (fun j => sorted.getD j (0, 0)), q.2 ≤ winner.2 := by
    intro sorted rounds samples pool h
    obtain ⟨hlen, hall⟩ := tournamentLoop_spec sorted samples rounds 0 pool h
    refine ⟨hlen, ?_⟩
    intro k hk
    obtain ⟨w, hw, hp⟩ := hall k hk
    rw [Nat.zero_add] at hw
    obtain ⟨h3, hnd, hbound, winner, hwm, hww, hmax⟩ := tournamentRound_some_elim hw
    exact ⟨h3, hnd, hbound, winner, hwm, by rw [hp, hww], hmax⟩
  refine ⟨main, ?_⟩
  intro stats r s out h
  obtain ⟨best, restSorted, pool, bred, hne, hsort, htour, hbred, -⟩ :=
    evolve_generation_some_elim h
  refine ⟨pool, ?_, ?_⟩
  · rw [hsort]
    exact htour
  · exact (main _ _ _ _ htour).1

/-- Claim C7 (amended): every `evolve_generation` call appends exactly one
record to `fitness_history` and leaves the previously appended record
values in place (the history list is append-only).  The `best_chromosome`
field of a record, however, is a *reference* to the live best chromosome
object, not a snapshot: a later evolve call that re-evaluates the fitness
of that chromosome (e.g. while it survives as an elite) changes the data
seen through the record — see the counterexample. -/
theorem claim_C7_history_append (stats : String → Option AttackResults) (r : EvolveRand)
    (s : EngineState) (out : EngineState × ℕ)
    (h : evolve_generation stats r s = some out) :
    out.1.fitness_history.length = s.fitness_history.length + 1 ∧
    out.1.fitness_history.take s.fitness_history.length = s.fitness_history := by
  obtain ⟨best, restSorted, pool, bred, hne, hsort, htour, hbred, hb, harena, hpop2, hgen,
    hrec, hbh, hcfg⟩ := evolve_generation_some_elim h
  obtain ⟨rec, hfh, -, -⟩ := hrec
  rw [hfh]
  constructor
  · simp
  · exact List.take_left s.fitness_history [rec]

/-- Claim C8: the top `elite_size` entries of the ranked evaluated
population are carried into the installed next population by reference, so
each is present there with the same chromosome object — in particular the
same id and the same fitness value just written by the evaluation step. -/
theorem claim_C8_elitism (stats : String → Option AttackResults) (r : EvolveRand)
    (s : EngineState) (out : EngineState × ℕ)
    (hnd : s.population.Nodup)
    (hwf : ∀ i ∈ s.population, i < s.arena.length)
    (h : evolve_generation stats r s = some out) :
    ∀ e ∈ (sortDesc (evaluatePhase s.config.fitness_weights stats s.arena s.population).2).take
        s.config.elite_size,
      ∃ ch, (evaluatePhase s.config.fitness_weights stats s.arena s.population).1[e.1]? =
          some ch ∧
        ch.fitness = e.2 ∧
        e.1 ∈ out.1.population ∧
        out.1.arena[e.1]? = some ch := by
  obtain ⟨best, restSorted, pool, bred, hne, hsort, htour, hbred, hb, harena, hpop2, hgen,
    hrec, hbh, hcfg⟩ := evolve_generation_some_elim h
  intro e he
  rw [hsort] at he
  have heSorted : e ∈ best :: restSorted := List.take_subset _ _ he
  have heScores : e ∈ (evaluatePhase s.config.fitness_weights stats s.arena s.population).2 := by
    rw [← hsort] at heSorted
    exact mem_sortDesc.mp heSorted
  have heRef : e.1 ∈ s.population := by
    have := List.mem_map_of_mem Prod.fst heScores
    rwa [evaluatePhase_scores_fst] at this
  have heLt : e.1 < (evaluatePhase s.config.fitness_weights stats s.arena s.population).1.length := by
    rw [evaluatePhase_arena_length]
    exact hwf e.1 heRef
  obtain ⟨ch, hch, hfit⟩ :=
    evaluatePhase_score_mem s.config.fitness_weights stats s.population s.arena hnd hwf e heScores
  refine ⟨ch, hch, hfit, ?_, ?_⟩
  · rw [hpop2]
    exact List.mem_append_left _ (List.mem_map_of_mem Prod.fst he)
  · rw [harena]
    obtain ⟨t, ht⟩ := breedLoop_arena_extend _ _ _ _ _ _ _ _ _ _ _ hbred
    rw [ht, List.getElem?_append_left heLt]
    exact hch

/-! ## A concrete one-chromosome run -/

/-- A configuration with a population of one and one elite, so that an
evolve step runs zero tournament rounds and breeds no offspring. -/
def cfg1 : GAConfig :=
  { population_size := 1, mutation_rate := 2/10, crossover_rate := 8/10, elite_size := 1
    fitness_weights := GA_CONFIG.fitness_weights }

def trivIter : IterRand :=
  { parent1_idx := 0, parent2_idx := 0, u := 9/10
    cross := { g1 := 9/10, g2 := 9/10, g3 := 9/10, g4 := 9/10
               a1 := 1/2, a2 := 1/2, a3 := 1/2, b1 := 1/2, b2 := 1/2, b3 := 1/2
               id1 := 1000, id2 := 1001 } }

def trivRand : EvolveRand :=
  { tournaments := fun _ => [0, 1, 2], iter := fun _ => trivIter
    mutation_u := fun _ => 0, mutation_r := fun _ => exampleMutRand }

/-- Telemetry batch with no entries: every chromosome evaluates to 0. -/
def stats_empty : String → Option AttackResults := fun _ => none

/-- Telemetry giving full engagement to the chromosome `"gen0_chr0"`. -/
def engagedStats : AttackResults :=
  { total_interaction_time := 120, data_points_collected := 0, failed_exploits := 0
    repeated_attempts := 0, abandoned := false, total_attempts := 1 }

def stats_good : String → Option AttackResults :=
  fun id => if id = "gen0_chr0" then some engagedStats else none

def s1pop : EngineState :=
  { config := cfg1, arena := [exampleChromosome], population := [0], generation := 0
    fitness_history := [], best_chromosome_history := [] }

/-- The state after the first evolve step (all stats empty). -/
noncomputable def s1popAfter : EngineState :=
  ((evolve_generation stats_empty trivRand s1pop).map Prod.fst).getD s1pop

/-- The state after a second evolve step that awards the surviving elite
chromosome `"gen0_chr0"` full engagement. -/
noncomputable def s1popAfter2 : EngineState :=
  ((evolve_generation stats_good trivRand s1popAfter).map Prod.fst).getD s1pop

theorem evolve1_eq : evolve_generation stats_empty trivRand s1pop = some (s1popAfter, 0) := rfl

theorem evolve2_eq :
    evolve_generation stats_good trivRand s1popAfter = some (s1popAfter2, 0) := rfl

theorem claim_C7_witness :
    s1popAfter.fitness_history.length = s1pop.fitness_history.length + 1 ∧
    s1popAfter.fitness_history.take s1pop.fitness_history.length = s1pop.fitness_history :=
  claim_C7_history_append stats_empty trivRand s1pop (s1popAfter, 0) evolve1_eq

theorem claim_C8_witness :
    (0 : ℕ) ∈ s1popAfter.population ∧ s1popAfter.arena[0]?.isSome = true := by
  have h := claim_C8_elitism stats_empty trivRand s1pop (s1popAfter, 0)
    (by simp [s1pop]) (by simp [s1pop]) evolve1_eq
  have hmem : ((0 : ℕ), (0 : ℝ)) ∈
      (sortDesc (evaluatePhase s1pop.config.fitness_weights stats_empty s1pop.arena
        s1pop.population).2).take s1pop.config.elite_size :=
    List.mem_singleton.mpr rfl
  obtain ⟨ch, hch, hfit, hmem', harena⟩ := h ((0 : ℕ), (0 : ℝ)) hmem
  refine ⟨hmem', ?_⟩
  rw [harena]
  rfl

/-- Claim C7 counterexample: after the first evolve (all stats empty) the
history holds one record whose `best_chromosome` field references arena
slot 0, whose fitness is then 0.  The best chromosome survives as the
elite of the next generation, and a second evolve call re-evaluates its
fitness to at least 300.  The record itself is untouched, but the
chromosome its `best_chromosome` field references has changed: the
"snapshot" seen through the record is not immutable. -/
theorem claim_C7_cex :
    (evolve_generation stats_empty trivRand s1pop).isSome = true ∧
    (evolve_generation stats_good trivRand s1popAfter).isSome = true ∧
    (s1popAfter.fitness_history.getD 0 defaultRecord).best_chromosome = 0 ∧
    (s1popAfter.fitness_history.getD 0 defaultRecord).best_fitness = 0 ∧
    (0 : ℕ) ∈ s1popAfter.population ∧
    (s1popAfter.arena.getD 0 defaultChromosome).fitness = 0 ∧
    s1popAfter2.fitness_history.getD 0 defaultRecord =
      s1popAfter.fitness_history.getD 0 defaultRecord ∧
    (s1popAfter2.arena.getD 0 defaultChromosome).fitness ≠
      (s1popAfter.arena.getD 0 defaultChromosome).fitness := by
  refine ⟨rfl, rfl, rfl, rfl, List.mem_singleton.mpr rfl, rfl, rfl, ?_⟩
  have heq : (s1popAfter2.arena.getD 0 defaultChromosome).fitness =
      fitness_function GA_CONFIG.fitness_weights
        { exampleChromosome with fitness := 0 } (some engagedStats) := rfl
  have heq0 : (s1popAfter.arena.getD 0 defaultChromosome).fitness = 0 := rfl
  rw [heq, heq0]
  have heq2 : fitness_function GA_CONFIG.fitness_weights
      { exampleChromosome with fitness := 0 } (some engagedStats) =
      (((min ((120 : ℚ)/120) 1 * (3/10) + min ((0 : ℚ)/100) 1 * (25/100) +
        ((0 : ℚ) / max 1 1 * (5/10) + (0 : ℚ) / max 1 1 * (3/10) + 0) * (25/100) : ℚ) : ℝ) +
        _calculate_chromosome_diversity { exampleChromosome with fitness := 0 } *
          ((2/10 : ℚ) : ℝ)) * 1000 := rfl
  have hq : (min ((120 : ℚ)/120) 1 * (3/10) + min ((0 : ℚ)/100) 1 * (25/100) +
      ((0 : ℚ) / max 1 1 * (5/10) + (0 : ℚ) / max 1 1 * (3/10) + 0) * (25/100) : ℚ) = 3/10 := by
    norm_num [min_def, max_def]
  have hV := chromosome_diversity_nonneg { exampleChromosome with fitness := 0 }
  rw [heq2, hq]
  have h310 : ((3/10 : ℚ) : ℝ) = 3/10 := by norm_num
  have hw : ((2/10 : ℚ) : ℝ) = 2/10 := by norm_num
  rw [h310, hw]
  intro hcontra
  nlinarith

/-! ## Claim C1: the mutation step never reaches the installed population -/

/-- Claim C1 (code bug): Step 5 of `evolve_generation`
(`for child in offspring: if random.random() < mutation_rate: child = self._mutate(child)`)
rebinds only the loop-local name, so the installed population never
contains a mutated child.  Formally: (1) the result of `evolve_generation`
does not depend on the mutation draws at all — two random traces agreeing
on the tournament and breeding draws but differing arbitrarily on the
mutation draws give identical results; (2) the Step 5 loop returns the
offspring unchanged on a concrete input whose first gate passes
(`mutation_u 0 = 0 < mutation_rate = 0.2`); and (3) the discarded
`_mutate` call on that offspring's chromosome would have changed its
`honeypot_count` from 5 to 7. -/
theorem claim_C1_mutation_dropped :
    (∀ (stats : String → Option AttackResults) (r r' : EvolveRand) (s : EngineState),
      r.tournaments = r'.tournaments → r.iter = r'.iter →
      evolve_generation stats r s = evolve_generation stats r' s) ∧
    mutationPhase GA_CONFIG.mutation_rate trivRand.mutation_u trivRand.mutation_r [4, 5, 6, 7] =
      [4, 5, 6, 7] ∧
    trivRand.mutation_u 0 < GA_CONFIG.mutation_rate ∧
    (_mutate (trivRand.mutation_r 0) exampleChromosome).honeypot_count = 7 ∧
    exampleChromosome.honeypot_count = 5 := by
  refine ⟨?_, rfl, by norm_num [trivRand, GA_CONFIG], ?_, rfl⟩
  · intro stats r r' s ht hi
    unfold evolve_generation mutationPhase
    rw [ht, hi]
  · rw [_mutate_honeypot_count,
      if_pos (show (trivRand.mutation_r 0).g1 < 3/10 by norm_num [trivRand, exampleMutRand])]
    decide

/-- A concrete ranked population of three with distinct fitness values. -/
noncomputable def sorted3 : List (ℕ × ℝ) := [(0, 30), (1, 20), (2, 10)]

theorem htourW : _tournament_selection sorted3 1 (fun _ => [0, 1, 2]) = some [0] := by
  unfold _tournament_selection tournamentLoop tournamentRound
  rw [if_pos (by norm_num [sorted3])]
  simp only [sorted3, pyMaxBy, List.map_cons, List.map_nil, List.getD]
  norm_num
  rfl

theorem claim_C6_witness :
    ([0] : List ℕ).length = 1 ∧
    (evolve_generation stats_empty trivRand s1pop).isSome = true := by
  constructor
  · exact (claim_C6_breeding_pool.1 sorted3 1 (fun _ => [0, 1, 2]) [0] htourW).1
  · have h2 := claim_C6_breeding_pool.2 stats_empty trivRand s1pop (s1popAfter, 0) evolve1_eq
    rw [evolve1_eq]
    rfl

/-- Claim C6 counterexample: the with-replacement sample `[2,2,2]` — which
the spec's "sample 3 with replacement" discipline admits, and which elects
the *worst* chromosome (fitness 10) as tournament winner — is not
producible by the source: `random.sample` draws distinct members, so the
round rejects that trace.  The code samples *without* replacement. -/
theorem claim_C6_cex :
    tournamentRound sorted3 [2, 2, 2] = none ∧
    tournamentRound_spec sorted3 [2, 2, 2] = some 2 ∧
    (sorted3.getD 2 (0, 0)).2 < (sorted3.getD 0 (0, 0)).2 := by
  refine ⟨?_, ?_, by norm_num [sorted3]⟩
  · unfold tournamentRound
    rw [if_neg]
    simp
  · unfold tournamentRound_spec
    rw [if_pos (by norm_num [sorted3])]
    simp only [sorted3, pyMaxBy, List.map_cons, List.map_nil, List.getD]
    norm_num
